import Mathlib

/-!
# The Szproduct facade of the gRPC client

A shallow embedding of `szproduct/szproduct.go`.  The facade is a record that is
passed explicitly; every method returns a `Step`: how the call ended (a return
value or a Go panic), the facade after the call, and the side effects the call
issued, in program order (trace log records, invocations of the RPC client,
calls of `notifier.Notify`, each marked as run on the calling path or handed to
a goroutine).  A call on the calling path is recorded with the hub and the origin it
reads there; a call in a goroutine reads `client.observers` and `client.observerOrigin`
when the goroutine runs, so it is recorded without them, and `notifyCalls` gives what it
passes to `notifier.Notify` for the facade it finds when it runs.
-/

namespace SzSdkGrpc

/-! ## Values that cross the facade -/

/-- A Go `context.Context`; only its identity matters to the facade. -/
structure Context where
  id : Nat
deriving DecidableEq, Repr

/-- A Go `error` value, by origin: a raw failure of the RPC layer (status code and
text), an error of the Senzing taxonomy as produced by the classifier, an error
built by `fmt.Errorf`, and the hub failure for an observer that is absent. -/
inductive GoError where
  | grpc (code : Nat) (message : String)
  | szerror (code : Nat) (message : String)
  | errorf (text : String)
  | notRegistered (observerID : String)
deriving DecidableEq, Repr

/-- The response message of `GetLicense` and `GetVersion`: it carries one string. -/
structure Response where
  result : String
deriving DecidableEq, Repr

/-- The generated getter `response.GetResult()`: a nil response yields the empty string. -/
def GetResult : Option Response → String
  | some response => response.result
  | none => ""

/-- The two remote procedures of the product service. -/
inductive RpcMethod where
  | GetLicense
  | GetVersion
deriving DecidableEq, Repr

/-- The injected RPC client (`szpb.SzProductClient`).  The remote side is a
collaborator: its answer to an invocation may depend on the context and on how
many invocations were made before, so that a repeated invocation is observable.
`calls` counts the invocations made so far. -/
structure GrpcClient where
  GetLicense : Context → Nat → Option Response × Option GoError
  GetVersion : Context → Nat → Option Response × Option GoError
  calls : Nat

/-! ## The logging library (go-logging), as far as the facade uses it -/

/-- A logger of go-logging: the facade only sets its level and logs through it. -/
structure Logger where
  level : String
deriving DecidableEq, Repr

/-- The constant `logging.LevelTraceName`. -/
def LevelTraceName : String := "TRACE"

/-- The function `logging.IsValidLogLevelName`: the names listed in the doc comment of
`SetLogLevel` (TRACE, DEBUG, INFO, WARN, ERROR, FATAL or PANIC). -/
def IsValidLogLevelName (logLevelName : String) : Bool :=
  decide (logLevelName ∈ ["TRACE", "DEBUG", "INFO", "WARN", "ERROR", "FATAL", "PANIC"])

/-- The constructor `logging.NewSenzingLogger(ComponentID, IDMessages, options...)`, called
with the constants of the package: it yields a logger at the default level. -/
def NewSenzingLogger (_componentID : Nat) : Except GoError Logger :=
  .ok { level := "INFO" }

/-- The method `SetLogLevel` of a logger: it sets the level, or fails on a name
that is not a level. -/
def Logger.SetLogLevel (logger : Logger) (logLevelName : String) : Logger × Option GoError :=
  if IsValidLogLevelName logLevelName then
    ({ level := logLevelName }, none)
  else
    (logger, some (.errorf ("invalid error level: " ++ logLevelName)))

/-! ## Observers and the hub -/

/-- Modelled from the spec: the observer type `observer.Observer` of go-observing is not
among the sources; the spec describes an observer as "an external listener identified
by a stable ID". -/
structure Observer where
  ObserverID : String
deriving DecidableEq, Repr

/-- The method `observer.GetObserverID(ctx)`. -/
def Observer.GetObserverID (observer : Observer) (_ctx : Context) : String :=
  observer.ObserverID

/-- Modelled from the spec: the hub `subject.SimpleSubject` of go-observing is not among
the sources; the spec describes it as "a mutable set of registered Observers, unique
by ID".  The zero value `&subject.SimpleSubject{}` is the empty set. -/
structure SimpleSubject where
  observers : List Observer
deriving DecidableEq, Repr

/-- Modelled from the spec: `Register(observer) -> error` of the hub, missing from the
sources: "adds observer", "re-registering the same ID is a no-op or replace, not a
duplicate". -/
def SimpleSubject.RegisterObserver (subject : SimpleSubject) (_ctx : Context)
    (observer : Observer) : SimpleSubject × Option GoError :=
  if observer ∈ subject.observers then (subject, none)
  else ({ observers := subject.observers ++ [observer] }, none)

/-- Modelled from the spec: `Unregister(observer) -> error` of the hub, missing from the
sources: "removes by ID; fails with NotRegistered if absent". -/
def SimpleSubject.UnregisterObserver (subject : SimpleSubject) (_ctx : Context)
    (observer : Observer) : SimpleSubject × Option GoError :=
  if observer ∈ subject.observers then
    ({ observers := subject.observers.erase observer }, none)
  else
    (subject, some (.notRegistered observer.ObserverID))

/-- Modelled from the spec: `HasObservers() -> bool` of the hub, missing from the sources. -/
def SimpleSubject.HasObservers (subject : SimpleSubject) (_ctx : Context) : Bool :=
  !subject.observers.isEmpty

/-! ## Side effects -/

/-- An argument of a trace record.  `elapsed` stands for `time.Since(entryTime)`. -/
inductive LogArg where
  | str (value : String)
  | int (value : Int)
  | err (value : Option GoError)
  | elapsed
deriving DecidableEq, Repr

/-- One call `notifier.Notify(ctx, client.observers, client.observerOrigin, componentID,
messageID, err, details)` as it is written in a method, with the arguments that are
local to the method: the context, the constants, the error variable and the detail map.
`spawned` tells whether the call sits in a `go func() { ... }()` or on the calling path.
The two fields of the facade that the call reads are not part of it: when they are read
depends on where the call sits. -/
structure Notification where
  spawned : Bool
  ctx : Context
  componentID : Nat
  messageID : Nat
  err : Option GoError
  details : List (String × String)
deriving DecidableEq, Repr

/-- The side effects of a facade method.  `notify` is a Notify call made on the calling
path, with the hub and the origin it read from the facade there; `spawn` is the start of
a goroutine that will make the Notify call, reading the hub and the origin of the facade
when it runs. -/
inductive Effect where
  | log (messageNumber : Nat) (details : List LogArg)
  | rpc (method : RpcMethod) (ctx : Context)
  | notify (observers : SimpleSubject) (origin : String) (notification : Notification)
  | spawn (notification : Notification)
deriving DecidableEq, Repr

/-- The notifications among a list of effects, in order: those made on the calling path
and those handed to a goroutine. -/
def notifications : List Effect → List Notification
  | [] => []
  | .notify _ _ n :: rest => n :: notifications rest
  | .spawn n :: rest => n :: notifications rest
  | _ :: rest => notifications rest

/-- One call of `notifier.Notify` as it takes place: the hub and the origin it is
given, read from the facade, and the rest of its arguments.  A nil hub is `none`. -/
structure NotifyCall where
  observers : Option SimpleSubject
  origin : String
  notification : Notification
deriving DecidableEq, Repr

/-- The RPC invocations among a list of effects, in order. -/
def rpcCalls : List Effect → List (RpcMethod × Context)
  | [] => []
  | .rpc method ctx :: rest => (method, ctx) :: rpcCalls rest
  | _ :: rest => rpcCalls rest

/-- The trace records among a list of effects, in order. -/
def logRecords : List Effect → List (Nat × List LogArg)
  | [] => []
  | .log n details :: rest => (n, details) :: logRecords rest
  | _ :: rest => logRecords rest

/-! ## The facade -/

/-- Declarations of the repository that `szproduct.go` uses and that are not in the
sources: the constant `ComponentID` of the package and the error classifier
`helper.ConvertGrpcError`. -/
structure Deps where
  ComponentID : Nat
  ConvertGrpcError : Option GoError → Option GoError

/-- The struct `Szproduct`.  A nil `logger` or `observers` is `none`. -/
structure Szproduct where
  GrpcClient : GrpcClient
  isTrace : Bool
  logger : Option Logger
  observerOrigin : String
  observers : Option SimpleSubject

/-- How a call ended: it returned a value, or it panicked. -/
inductive Outcome (α : Type) where
  | returned (value : α)
  | panicked (reason : String)
deriving DecidableEq, Repr

/-- The result of running a method: how it ended, the facade afterwards (the
assignments made before a panic stay), and the effects issued. -/
structure Step (α : Type) where
  outcome : Outcome α
  client : Szproduct
  effects : List Effect

/-- The method `getLogger`: the logger is created on first use; a failure to
create it panics. -/
def Szproduct.getLogger (deps : Deps) (client : Szproduct) : Step Logger :=
  match client.logger with
  | some logger => ⟨.returned logger, client, []⟩
  | none =>
    match NewSenzingLogger deps.ComponentID with
    | .ok logger => ⟨.returned logger, { client with logger := some logger }, []⟩
    | .error _ => ⟨.panicked "logging.NewSenzingLogger failed", client, []⟩

/-- The method `traceEntry`: `client.getLogger().Log(errorNumber, details...)`. -/
def Szproduct.traceEntry (deps : Deps) (client : Szproduct) (errorNumber : Nat)
    (details : List LogArg) : Step Unit :=
  match client.getLogger deps with
  | ⟨.returned _, client1, effects⟩ => ⟨.returned (), client1, effects ++ [.log errorNumber details]⟩
  | ⟨.panicked reason, client1, effects⟩ => ⟨.panicked reason, client1, effects⟩

/-- The method `traceExit`: `client.getLogger().Log(errorNumber, details...)`. -/
def Szproduct.traceExit (deps : Deps) (client : Szproduct) (errorNumber : Nat)
    (details : List LogArg) : Step Unit :=
  match client.getLogger deps with
  | ⟨.returned _, client1, effects⟩ => ⟨.returned (), client1, effects ++ [.log errorNumber details]⟩
  | ⟨.panicked reason, client1, effects⟩ => ⟨.panicked reason, client1, effects⟩

/-- The head of every method: `if client.isTrace { client.traceEntry(...) ; defer ... }`.
The flag is read once, here. -/
def Szproduct.enter (deps : Deps) (client : Szproduct) (errorNumber : Nat)
    (details : List LogArg) : Step Unit :=
  if client.isTrace then client.traceEntry deps errorNumber details
  else ⟨.returned (), client, []⟩

/-- The deferred `client.traceExit(...)`, registered when the flag was on at entry:
it runs when the body has ended, by a return or by a panic. -/
def Step.leave {α : Type} (deps : Deps) (traced : Bool) (errorNumber : Nat)
    (details : List LogArg) (body : Step α) : Step α :=
  if traced then
    match body.client.traceExit deps errorNumber details with
    | ⟨.returned _, client1, effects⟩ => ⟨body.outcome, client1, body.effects ++ effects⟩
    | ⟨.panicked reason, client1, effects⟩ => ⟨.panicked reason, client1, body.effects ++ effects⟩
  else body

/-- The guarded notification `if client.observers != nil { go func() { ... }() }`: the
guard is evaluated on the calling path; the goroutine evaluates `client.observers` and
`client.observerOrigin` when it runs. -/
def Szproduct.notifySpawned (deps : Deps) (client : Szproduct) (ctx : Context)
    (messageID : Nat) (err : Option GoError) (details : List (String × String)) : List Effect :=
  match client.observers with
  | some _ => [.spawn ⟨true, ctx, deps.ComponentID, messageID, err, details⟩]
  | none => []

/-- The calls of `notifier.Notify` that the effects of a method lead to when the
goroutines it spawned run while the facade is `later`: a call on the calling path was
given the hub and the origin read there; a goroutine is given what `client.observers`
and `client.observerOrigin` hold when it runs. -/
def notifyCalls (later : Szproduct) : List Effect → List NotifyCall
  | [] => []
  | .notify observers origin n :: rest => ⟨some observers, origin, n⟩ :: notifyCalls later rest
  | .spawn n :: rest => ⟨later.observers, later.observerOrigin, n⟩ :: notifyCalls later rest
  | _ :: rest => notifyCalls later rest

/-- The method `Destroy`. -/
def Szproduct.Destroy (deps : Deps) (client : Szproduct) (ctx : Context) : Step (Option GoError) :=
  let err : Option GoError := none
  match client.enter deps 3 [] with
  | ⟨.panicked reason, client0, effects0⟩ => ⟨.panicked reason, client0, effects0⟩
  | ⟨.returned _, client0, effects0⟩ =>
    Step.leave deps client.isTrace 4 [.err err, .elapsed]
      ⟨.returned err, client0, effects0 ++ client0.notifySpawned deps ctx 8001 err []⟩

/-- The method `GetLicense`. -/
def Szproduct.GetLicense (deps : Deps) (client : Szproduct) (ctx : Context) :
    Step (String × Option GoError) :=
  match client.enter deps 11 [] with
  | ⟨.panicked reason, client0, effects0⟩ => ⟨.panicked reason, client0, effects0⟩
  | ⟨.returned _, client0, effects0⟩ =>
    let response := client0.GrpcClient.GetLicense ctx client0.GrpcClient.calls
    let client1 : Szproduct :=
      { client0 with GrpcClient := { client0.GrpcClient with calls := client0.GrpcClient.calls + 1 } }
    let result := GetResult response.1
    let err := deps.ConvertGrpcError response.2
    Step.leave deps client.isTrace 12 [.str result, .err err, .elapsed]
      ⟨.returned (result, err), client1,
        effects0 ++ [.rpc .GetLicense ctx] ++ client1.notifySpawned deps ctx 8003 err []⟩

/-- The method `GetVersion`. -/
def Szproduct.GetVersion (deps : Deps) (client : Szproduct) (ctx : Context) :
    Step (String × Option GoError) :=
  match client.enter deps 19 [] with
  | ⟨.panicked reason, client0, effects0⟩ => ⟨.panicked reason, client0, effects0⟩
  | ⟨.returned _, client0, effects0⟩ =>
    let response := client0.GrpcClient.GetVersion ctx client0.GrpcClient.calls
    let client1 : Szproduct :=
      { client0 with GrpcClient := { client0.GrpcClient with calls := client0.GrpcClient.calls + 1 } }
    let result := GetResult response.1
    let err := deps.ConvertGrpcError response.2
    Step.leave deps client.isTrace 20 [.str result, .err err, .elapsed]
      ⟨.returned (result, err), client1,
        effects0 ++ [.rpc .GetVersion ctx] ++ client1.notifySpawned deps ctx 8006 err []⟩

/-- The method `GetObserverOrigin`. -/
def Szproduct.GetObserverOrigin (client : Szproduct) (_ctx : Context) : String :=
  client.observerOrigin

/-- The method `Initialize`. -/
def Szproduct.Initialize (deps : Deps) (client : Szproduct) (ctx : Context)
    (instanceName : String) (settings : String) (verboseLogging : Int) : Step (Option GoError) :=
  let err : Option GoError := none
  match client.enter deps 9 [.str instanceName, .str settings, .int verboseLogging] with
  | ⟨.panicked reason, client0, effects0⟩ => ⟨.panicked reason, client0, effects0⟩
  | ⟨.returned _, client0, effects0⟩ =>
    Step.leave deps client.isTrace 10
      [.str instanceName, .str settings, .int verboseLogging, .err err, .elapsed]
      ⟨.returned err, client0,
        effects0 ++ client0.notifySpawned deps ctx 8002 err
          [("instanceName", instanceName), ("settings", settings),
           ("verboseLogging", toString verboseLogging)]⟩

/-- The method `RegisterObserver`. -/
def Szproduct.RegisterObserver (deps : Deps) (client : Szproduct) (ctx : Context)
    (observer : Observer) : Step (Option GoError) :=
  match client.enter deps 21 [.str (observer.GetObserverID ctx)] with
  | ⟨.panicked reason, client0, effects0⟩ => ⟨.panicked reason, client0, effects0⟩
  | ⟨.returned _, client0, effects0⟩ =>
    let subject : SimpleSubject :=
      match client0.observers with
      | none => { observers := [] }
      | some observers => observers
    let registered := subject.RegisterObserver ctx observer
    let client1 : Szproduct := { client0 with observers := some registered.1 }
    let err := registered.2
    Step.leave deps client.isTrace 22 [.str (observer.GetObserverID ctx), .err err, .elapsed]
      ⟨.returned err, client1,
        effects0 ++ client1.notifySpawned deps ctx 8008 err
          [("observerID", observer.GetObserverID ctx)]⟩

/-- The method `SetLogLevel`. -/
def Szproduct.SetLogLevel (deps : Deps) (client : Szproduct) (ctx : Context)
    (logLevelName : String) : Step (Option GoError) :=
  match client.enter deps 13 [.str logLevelName] with
  | ⟨.panicked reason, client0, effects0⟩ => ⟨.panicked reason, client0, effects0⟩
  | ⟨.returned _, client0, effects0⟩ =>
    if !IsValidLogLevelName logLevelName then
      Step.leave deps client.isTrace 14 [.str logLevelName, .err none, .elapsed]
        ⟨.returned (some (.errorf ("invalid error level: " ++ logLevelName))), client0, effects0⟩
    else
      match client0.getLogger deps with
      | ⟨.panicked reason, client1, effects1⟩ =>
        Step.leave deps client.isTrace 14 [.str logLevelName, .err none, .elapsed]
          ⟨.panicked reason, client1, effects0 ++ effects1⟩
      | ⟨.returned logger, client1, effects1⟩ =>
        let set := logger.SetLogLevel logLevelName
        let err := set.2
        let client2 : Szproduct :=
          { client1 with logger := some set.1, isTrace := (logLevelName == LevelTraceName) }
        Step.leave deps client.isTrace 14 [.str logLevelName, .err err, .elapsed]
          ⟨.returned err, client2,
            effects0 ++ effects1 ++ client2.notifySpawned deps ctx 8009 err
              [("logLevelName", logLevelName)]⟩

/-- The method `SetObserverOrigin`. -/
def Szproduct.SetObserverOrigin (client : Szproduct) (_ctx : Context) (origin : String) :
    Szproduct :=
  { client with observerOrigin := origin }

/-- The method `UnregisterObserver`.  The notification is made on the calling path,
before the removal; the two method calls on `client.observers` that follow the
guard are made whether or not the hub is nil, and a call on a nil hub panics. -/
def Szproduct.UnregisterObserver (deps : Deps) (client : Szproduct) (ctx : Context)
    (observer : Observer) : Step (Option GoError) :=
  let err : Option GoError := none
  match client.enter deps 23 [.str (observer.GetObserverID ctx)] with
  | ⟨.panicked reason, client0, effects0⟩ => ⟨.panicked reason, client0, effects0⟩
  | ⟨.returned _, client0, effects0⟩ =>
    match client0.observers with
    | some observers =>
      let notified : List Effect :=
        [.notify observers client0.observerOrigin
          ⟨false, ctx, deps.ComponentID, 8010, err,
            [("observerID", observer.GetObserverID ctx)]⟩]
      let unregistered := observers.UnregisterObserver ctx observer
      let err1 := unregistered.2
      let client1 : Szproduct :=
        if !unregistered.1.HasObservers ctx then { client0 with observers := none }
        else { client0 with observers := some unregistered.1 }
      Step.leave deps client.isTrace 24 [.str (observer.GetObserverID ctx), .err err1, .elapsed]
        ⟨.returned err1, client1, effects0 ++ notified⟩
    | none =>
      Step.leave deps client.isTrace 24 [.str (observer.GetObserverID ctx), .err err, .elapsed]
        ⟨.panicked "invalid memory address or nil pointer dereference", client0, effects0⟩

/-! ## Calls, for statements that range over the methods -/

/-- A call of one of the seven methods that notify, with its arguments. -/
inductive Call where
  | Destroy (ctx : Context)
  | GetLicense (ctx : Context)
  | GetVersion (ctx : Context)
  | Initialize (ctx : Context) (instanceName : String) (settings : String) (verboseLogging : Int)
  | RegisterObserver (ctx : Context) (observer : Observer)
  | SetLogLevel (ctx : Context) (logLevelName : String)
  | UnregisterObserver (ctx : Context) (observer : Observer)
deriving DecidableEq, Repr

/-- The value a step returned, changed by a function. -/
def Step.map {α β : Type} (f : α → β) (step : Step α) : Step β :=
  match step with
  | ⟨.returned value, client, effects⟩ => ⟨.returned (f value), client, effects⟩
  | ⟨.panicked reason, client, effects⟩ => ⟨.panicked reason, client, effects⟩

/-- Runs a call on the facade.  The value returned is the pair of the result string
(none for a method that returns an error only) and the error. -/
def Szproduct.call (deps : Deps) (client : Szproduct) : Call → Step (Option String × Option GoError)
  | .Destroy ctx => (client.Destroy deps ctx).map fun err => (none, err)
  | .GetLicense ctx => (client.GetLicense deps ctx).map fun r => (some r.1, r.2)
  | .GetVersion ctx => (client.GetVersion deps ctx).map fun r => (some r.1, r.2)
  | .Initialize ctx instanceName settings verboseLogging =>
    (client.Initialize deps ctx instanceName settings verboseLogging).map fun err => (none, err)
  | .RegisterObserver ctx observer =>
    (client.RegisterObserver deps ctx observer).map fun err => (none, err)
  | .SetLogLevel ctx logLevelName =>
    (client.SetLogLevel deps ctx logLevelName).map fun err => (none, err)
  | .UnregisterObserver ctx observer =>
    (client.UnregisterObserver deps ctx observer).map fun err => (none, err)

/-- Whether the call is `UnregisterObserver`, the one method that notifies before it acts. -/
def Call.isUnregister : Call → Bool
  | .UnregisterObserver _ _ => true
  | _ => false

/-- Whether the call is `RegisterObserver` or `UnregisterObserver`, the two methods that
act on the hub. -/
def Call.isObserverCall : Call → Bool
  | .RegisterObserver _ _ => true
  | .UnregisterObserver _ _ => true
  | _ => false

/-- Whether the call is a `SetLogLevel` that the guard on the log level name rejects. -/
def Call.isRejected : Call → Bool
  | .SetLogLevel _ logLevelName => !IsValidLogLevelName logLevelName
  | _ => false

/-- A registration call on the facade. -/
inductive ObserverOp where
  | register (observer : Observer)
  | unregister (observer : Observer)
deriving DecidableEq, Repr

/-- The facade after a registration call.  A call that panics leaves the facade as it
was when the panic occurred. -/
def Szproduct.afterObserverOp (deps : Deps) (ctx : Context) (client : Szproduct) :
    ObserverOp → Szproduct
  | .register observer => (client.RegisterObserver deps ctx observer).client
  | .unregister observer => (client.UnregisterObserver deps ctx observer).client

/-- The facade after a sequence of registration calls, made in order. -/
def Szproduct.afterObserverOps (deps : Deps) (ctx : Context) (client : Szproduct)
    (ops : List ObserverOp) : Szproduct :=
  ops.foldl (Szproduct.afterObserverOp deps ctx) client

/-- The wording of the claim on registration sequences: the observer was registered by a
call of the sequence and no later call of the sequence unregistered it. -/
def stillRegistered (ops : List ObserverOp) (observer : Observer) : Prop :=
  ∃ before after, ops = before ++ .register observer :: after ∧ .unregister observer ∉ after

/-- The hub a facade holds for a set of observers: none for the empty set. -/
def hubOf (observers : List Observer) : Option SimpleSubject :=
  if observers = [] then none else some { observers := observers }

/-- The seven methods that notify, by name. -/
inductive Operation where
  | Destroy
  | GetLicense
  | GetVersion
  | Initialize
  | RegisterObserver
  | SetLogLevel
  | UnregisterObserver
deriving DecidableEq, Repr

/-- The method a call is a call of. -/
def Call.operation : Call → Operation
  | .Destroy _ => .Destroy
  | .GetLicense _ => .GetLicense
  | .GetVersion _ => .GetVersion
  | .Initialize _ _ _ _ => .Initialize
  | .RegisterObserver _ _ => .RegisterObserver
  | .SetLogLevel _ _ => .SetLogLevel
  | .UnregisterObserver _ _ => .UnregisterObserver

/-- Runs calls one after the other on the facade, each on the facade the one before
left, and gathers the effects in order.  A call that panics leaves the facade as it was
when the panic occurred. -/
def Szproduct.runCalls (deps : Deps) (client : Szproduct) : List Call → Szproduct × List Effect
  | [] => (client, [])
  | call :: rest =>
    ((Szproduct.runCalls deps (client.call deps call).client rest).1,
      (client.call deps call).effects ++
        (Szproduct.runCalls deps (client.call deps call).client rest).2)

/-- The facade after the origin was set to each string of a list, in order. -/
def Szproduct.setOrigins (client : Szproduct) (ctx : Context) (origins : List String) :
    Szproduct :=
  origins.foldl (fun facade origin => facade.SetObserverOrigin ctx origin) client

/-! ## The export cursor

The cursor code of the engine facade (`szengine/szengine.go`: `FetchNext`, `CloseExport`)
is not among the sources, only its tests are; the cursor is modelled from the spec. -/

/-- Modelled from the spec: the states of an export cursor, missing from the sources:
"cursor state {Open, Exhausted, Closed}". -/
inductive CursorState where
  | Open
  | Exhausted
  | Closed
deriving DecidableEq, Repr

/-- Modelled from the spec: the failures a cursor operation surfaces, missing from the
sources: `InvalidState` for a `Next` on a closed cursor, or the classified failure of
the remote capability. -/
inductive ExportError where
  | InvalidState
  | remote (classified : GoError)
deriving DecidableEq, Repr

/-- Modelled from the spec: the remote capability behind one export handle, missing from
the sources.  It holds its answers to the fetch requests to come, each a fragment or a
failure ("a non-empty fragment while data remains", the empty fragment once the answers
are used up), its answer to the release request, and how many requests of each kind it
has received. -/
structure RemoteExport where
  replies : List (String × Option GoError)
  releaseReply : Option GoError
  fetches : Nat
  releases : Nat
deriving DecidableEq, Repr

/-- Modelled from the spec: one fetch request to the remote capability. -/
def RemoteExport.fetch (remote : RemoteExport) : (String × Option GoError) × RemoteExport :=
  (remote.replies.headD ("", none),
    { remote with replies := remote.replies.tail, fetches := remote.fetches + 1 })

/-- Modelled from the spec: the release request to the remote capability. -/
def RemoteExport.release (remote : RemoteExport) : Option GoError × RemoteExport :=
  (remote.releaseReply, { remote with releases := remote.releases + 1 })

/-- Modelled from the spec: the remote capability when an export is opened on a report
that the server has split into the given chunks. -/
def RemoteExport.serving (chunks : List String) (releaseReply : Option GoError) : RemoteExport :=
  { replies := chunks.map fun chunk => (chunk, none), releaseReply := releaseReply,
    fetches := 0, releases := 0 }

/-- Modelled from the spec: the export cursor, missing from the sources: it "wraps an
ExportHandle plus cursor state". -/
structure ExportCursor where
  handle : Nat
  state : CursorState
  remote : RemoteExport
deriving DecidableEq, Repr

/-- Modelled from the spec: the cursor an export operation returns, "positioned at its
start". -/
def ExportCursor.opened (handle : Nat) (remote : RemoteExport) : ExportCursor :=
  { handle := handle, state := .Open, remote := remote }

/-- Modelled from the spec: `Next() -> (fragment, error)` (`FetchNext`), missing from the
sources.  On a closed cursor it "is an error (InvalidState), not a silent empty
fragment"; "once a fetch returns an empty fragment, state moves to Exhausted and further
Next() calls return empty without contacting the remote capability"; a failure of the
remote call is surfaced classified.  `Classify` is the error classifier. -/
def ExportCursor.Next (Classify : GoError → GoError) (cursor : ExportCursor) :
    Except ExportError String × ExportCursor :=
  match cursor.state with
  | .Closed => (.error .InvalidState, cursor)
  | .Exhausted => (.ok "", cursor)
  | .Open =>
    match cursor.remote.fetch with
    | ((_, some raw), remote1) =>
      (.error (.remote (Classify raw)), { cursor with remote := remote1 })
    | ((fragment, none), remote1) =>
      if fragment = "" then (.ok "", { cursor with state := .Exhausted, remote := remote1 })
      else (.ok fragment, { cursor with remote := remote1 })

/-- Modelled from the spec: `Close() -> error` (`CloseExport`), missing from the sources:
it "releases the remote handle", "subsequent calls are no-ops returning no error", and a
failure to release is "reported but must not prevent the cursor from transitioning to
Closed locally". -/
def ExportCursor.Close (Classify : GoError → GoError) (cursor : ExportCursor) :
    Option ExportError × ExportCursor :=
  match cursor.state with
  | .Closed => (none, cursor)
  | _ =>
    match cursor.remote.release with
    | (some raw, remote1) =>
      (some (.remote (Classify raw)), { cursor with state := .Closed, remote := remote1 })
    | (none, remote1) => (none, { cursor with state := .Closed, remote := remote1 })

/-- The loop of `TestSzengine_ExportJsonEntityReport` and `ExampleSzengine_FetchNext`:
fetch until the first empty fragment and append each fragment to the report.  The loop
runs for at most `fuel` fetches; it yields nothing when the fuel runs out or a fetch
fails. -/
def ExportCursor.fetchAll (Classify : GoError → GoError) :
    Nat → ExportCursor → Option (String × ExportCursor)
  | 0, _ => none
  | fuel + 1, cursor =>
    match cursor.Next Classify with
    | (.error _, _) => none
    | (.ok fragment, cursor1) =>
      if fragment = "" then some ("", cursor1)
      else
        match ExportCursor.fetchAll Classify fuel cursor1 with
        | none => none
        | some (rest, cursor2) => some (fragment ++ rest, cursor2)

/-- The report a list of chunks is a split of: the chunks, appended in order. -/
def concatFragments : List String → String
  | [] => ""
  | chunk :: rest => chunk ++ concatFragments rest

/-- Modelled from the spec: the sequence protocol of the cursor (`AsSequence`, the
report iterators of the engine facade), missing from the sources: a "lazy sequence
equivalent to repeated Next() calls, terminating when exhaustion is reached; each
element may itself surface a classified error, at which point iteration stops".  The
sequence is cut after `fuel` fetches; the cursor it leaves is returned with it. -/
def ExportCursor.AsSequence (Classify : GoError → GoError) :
    Nat → ExportCursor → List (Except ExportError String) × ExportCursor
  | 0, cursor => ([], cursor)
  | fuel + 1, cursor =>
    match cursor.Next Classify with
    | (.error e, cursor1) => ([.error e], cursor1)
    | (.ok fragment, cursor1) =>
      if fragment = "" then ([], cursor1)
      else
        (.ok fragment :: (ExportCursor.AsSequence Classify fuel cursor1).1,
          (ExportCursor.AsSequence Classify fuel cursor1).2)

/-- Modelled from the spec: a report iterator of the engine facade
(`ExportCsvEntityReportIterator`, `ExportJSONEntityReportIterator`), missing from the
sources: it opens an export of its own ("restartable-per-open") and yields the sequence
of its cursor.  `remote` is the remote capability behind the handle it is given. -/
def ExportEntityReportIterator (Classify : GoError → GoError) (fuel : Nat) (handle : Nat)
    (remote : RemoteExport) : List (Except ExportError String) :=
  ((ExportCursor.opened handle remote).AsSequence Classify fuel).1

/-- What the first `count` successive `Next` calls on a cursor return, in order. -/
def ExportCursor.nextResults (Classify : GoError → GoError) :
    Nat → ExportCursor → List (Except ExportError String)
  | 0, _ => []
  | count + 1, cursor =>
    (cursor.Next Classify).1 :: ExportCursor.nextResults Classify count (cursor.Next Classify).2

/-- The wording of the claim on iterators: of the results of successive `Next` calls,
the non-empty fragments up to the first empty fragment, or up to and with the first
error. -/
def untilStop : List (Except ExportError String) → List (Except ExportError String)
  | [] => []
  | .error e :: _ => [.error e]
  | .ok fragment :: rest => if fragment = "" then [] else .ok fragment :: untilStop rest

/-! ## The error classifier

The classifier of the repository (`helper.ConvertGrpcError`) is not among the sources; it
is modelled from the spec. -/

/-- Modelled from the spec: the taxonomy kinds of the classifier, missing from the
sources: "exactly one of: BadInput, NotFound, Retryable, Unrecoverable, Unknown". -/
inductive TaxonomyKind where
  | BadInput
  | NotFound
  | Retryable
  | Unrecoverable
  | Unknown
deriving DecidableEq, Repr

/-- Modelled from the spec: the transport-layer condition of a failure, missing from the
sources: "deadline exceeded, unavailable, resource exhausted", "not-found status",
"invalid-argument status", "anything else". -/
inductive TransportCondition where
  | DeadlineExceeded
  | Unavailable
  | ResourceExhausted
  | NotFound
  | InvalidArgument
  | Other (status : Nat)
deriving DecidableEq, Repr

/-- Modelled from the spec: a failure produced by the RPC invocation layer, missing from
the sources: a transport condition, and for a "server-encoded fault payload" the "numeric
code and text" it carries. -/
structure RawFailure where
  faultCode : Option Nat
  transport : TransportCondition
  text : String
deriving DecidableEq, Repr

/-- Modelled from the spec: the record the classifier produces, missing from the sources:
"{component ID, numeric message code, taxonomy kind, underlying cause}". -/
structure ErrorRecord where
  componentID : Nat
  messageCode : Option Nat
  kind : TaxonomyKind
  cause : RawFailure
deriving DecidableEq, Repr

/-- Modelled from the spec: `Classify(rawError) -> ErrorRecord`, missing from the sources:
"inspect the server-reported numeric fault code first; if absent, classify
transport-layer conditions"; an unmapped fault code yields `Unknown`.  The table of
fault codes is in neither the spec nor the sources: `faultKinds` gives the kind of the
codes it maps. -/
def ErrorClassifier.Classify (componentID : Nat) (faultKinds : Nat → Option TaxonomyKind)
    (rawError : RawFailure) : ErrorRecord :=
  { componentID := componentID
    messageCode := rawError.faultCode
    kind :=
      match rawError.faultCode with
      | some code =>
        match faultKinds code with
        | some kind => kind
        | none => .Unknown
      | none =>
        match rawError.transport with
        | .DeadlineExceeded => .Retryable
        | .Unavailable => .Retryable
        | .ResourceExhausted => .Retryable
        | .NotFound => .NotFound
        | .InvalidArgument => .BadInput
        | .Other _ => .Unrecoverable
    cause := rawError }

/-- Whether the call is an `UnregisterObserver` of the given observer. -/
def Call.unregisters (observer : Observer) : Call → Bool
  | .UnregisterObserver _ removed => decide (removed = observer)
  | _ => false

/-- The message number of the trace entry record of each method; the exit record of
the method has the next number. -/
def Operation.entryNumber : Operation → Nat
  | .Destroy => 3
  | .Initialize => 9
  | .GetLicense => 11
  | .SetLogLevel => 13
  | .GetVersion => 19
  | .RegisterObserver => 21
  | .UnregisterObserver => 23

/-- The entries of the detail map that each method builds from its arguments. -/
def Call.details : Call → List (String × String)
  | .Destroy _ => []
  | .GetLicense _ => []
  | .GetVersion _ => []
  | .Initialize _ instanceName settings verboseLogging =>
    [("instanceName", instanceName), ("settings", settings),
      ("verboseLogging", toString verboseLogging)]
  | .RegisterObserver ctx observer => [("observerID", observer.GetObserverID ctx)]
  | .SetLogLevel _ logLevelName => [("logLevelName", logLevelName)]
  | .UnregisterObserver ctx observer => [("observerID", observer.GetObserverID ctx)]

/-! ## Fixtures for evaluating the methods on concrete inputs -/

/-- A classifier to evaluate with: nil stays nil and a failure of the RPC layer
becomes an error of the taxonomy with the same code and text. -/
def classifyByCode : Option GoError → Option GoError
  | some (.grpc code message) => some (.szerror code message)
  | other => other

/-- Dependencies to evaluate with. -/
def sampleDeps : Deps :=
  { ComponentID := 6026, ConvertGrpcError := classifyByCode }

/-- A license document, as the remote side returns it. -/
def sampleLicense : String := "\x7b\"licenseType\":\"EVAL\"\x7d"

/-- A version document, as the remote side returns it. -/
def sampleVersion : String := "\x7b\"PRODUCT_NAME\":\"Senzing API\"\x7d"

/-- A remote side that answers every license request with a document, answers the
first invocation of the version request with a document, and fails any later one with
status 14 (unavailable). -/
def sampleGrpcClient : GrpcClient :=
  { GetLicense := fun _ _ => (some { result := sampleLicense }, none)
    GetVersion := fun _ n =>
      if n = 0 then (some { result := sampleVersion }, none)
      else (none, some (.grpc 14 "unavailable"))
    calls := 0 }

/-- The facade as the callers build it, `&Szproduct{GrpcClient: ...}`: every other
field has its zero value. -/
def Szproduct.fresh (grpcClient : SzSdkGrpc.GrpcClient) : Szproduct :=
  { GrpcClient := grpcClient, isTrace := false, logger := none, observerOrigin := "",
    observers := none }

/-- A context to evaluate with. -/
def sampleCtx : Context := { id := 0 }

/-- A fresh facade on the sample remote side. -/
def freshFacade : Szproduct := Szproduct.fresh sampleGrpcClient

/-- The facade after one observer was registered on a fresh one. -/
def observedFacade : Szproduct :=
  (freshFacade.RegisterObserver sampleDeps sampleCtx { ObserverID := "observer-1" }).client

/-- The notification of a GetVersion that the sample remote side fails, issued with
the one observer of `observedFacade` registered. -/
def failedVersionNotification : Notification :=
  { spawned := true, ctx := sampleCtx, componentID := 6026, messageID := 8006,
    err := some (.szerror 14 "unavailable"), details := [] }

/-- An open cursor on a report of three rows that the server sends in three chunks; the
server fails to release the handle. -/
def sampleCursor : ExportCursor :=
  ExportCursor.opened 1
    (RemoteExport.serving ["1,0,CUSTOMERS,1001\n", "1,0,CUSTOMERS,", "1002\n1,0,CUSTOMERS,1003\n"]
      (some (.grpc 13 "release failed")))

/-- An open cursor on the same report; the server releases the handle. -/
def releasableCursor : ExportCursor :=
  ExportCursor.opened 2
    (RemoteExport.serving ["1,0,CUSTOMERS,1001\n", "1,0,CUSTOMERS,", "1002\n1,0,CUSTOMERS,1003\n"]
      none)

/-- The notification of an Initialize with a negative logging flag on `observedFacade`. -/
def initializeNotification : Notification :=
  { spawned := true, ctx := sampleCtx, componentID := 6026, messageID := 8002, err := none,
    details := [("instanceName", "Test name"), ("settings", "none"),
      ("verboseLogging", "-1")] }

/-- A table of fault codes to evaluate with: code 23 is an error of the caller, code 33
a missing record, code 9000 a transient condition. -/
def sampleFaultKinds : Nat → Option TaxonomyKind
  | 23 => some .BadInput
  | 33 => some .NotFound
  | 9000 => some .Retryable
  | _ => none

/-- The header line of a CSV report, as `TestSzengine_ExportCsvEntityReportIterator`
receives it. -/
def sampleHeader : String :=
  "RESOLVED_ENTITY_ID,RELATED_ENTITY_ID,MATCH_LEVEL_CODE,MATCH_KEY,DATA_SOURCE,RECORD_ID\n"

/-- A remote side that sends the header line alone first and then the three rows of
`sampleRows` in two fragments that do not end where the rows end. -/
def irregularCsvRemote : RemoteExport :=
  RemoteExport.serving
    [sampleHeader, "1,0,CUSTOMERS,1001\n1,0,CUST", "OMERS,1002\n1,0,CUSTOMERS,1003\n"] none

/-- The rows of a CSV report, one to a line. -/
def sampleRows : List String :=
  ["1,0,CUSTOMERS,1001\n", "1,0,CUSTOMERS,1002\n", "1,0,CUSTOMERS,1003\n"]

/-- A classifier of failures to evaluate the cursor with: a failure of the RPC layer
becomes an error of the taxonomy with the same code and text. -/
def classifyErr : GoError → GoError
  | .grpc code message => .szerror code message
  | other => other

/-- A remote side whose second fetch fails. -/
def failingRemote : RemoteExport :=
  { replies := [("1,0,CUSTOMERS,1001\n", none), ("", some (.grpc 14 "unavailable")),
      ("1,0,CUSTOMERS,1003\n", none)],
    releaseReply := none, fetches := 0, releases := 0 }

/-- A sequence of registration calls: two observers come, the first one leaves. -/
def sampleOps : List ObserverOp :=
  [.register { ObserverID := "observer-1" }, .register { ObserverID := "observer-2" },
    .unregister { ObserverID := "observer-1" }]

/-! ## Basic facts about the trace wrapper -/

theorem getLogger_eq (deps : Deps) (client : Szproduct) :
    client.getLogger deps =
      ⟨.returned (client.logger.getD { level := "INFO" }),
        { client with logger := some (client.logger.getD { level := "INFO" }) }, []⟩ := by
  cases client with
  | mk g t l o obs => cases l <;> simp [Szproduct.getLogger, NewSenzingLogger]

theorem enter_eq (deps : Deps) (client : Szproduct) (n : Nat) (details : List LogArg) :
    client.enter deps n details =
      if client.isTrace then
        ⟨.returned (), { client with logger := some (client.logger.getD { level := "INFO" }) },
          [.log n details]⟩
      else ⟨.returned (), client, []⟩ := by
  simp [Szproduct.enter, Szproduct.traceEntry, getLogger_eq]

theorem leave_eq {α : Type} (deps : Deps) (traced : Bool) (n : Nat) (details : List LogArg)
    (body : Step α) :
    Step.leave deps traced n details body =
      if traced then
        ⟨body.outcome,
          { body.client with logger := some (body.client.logger.getD { level := "INFO" }) },
          body.effects ++ [.log n details]⟩
      else body := by
  simp [Step.leave, Szproduct.traceExit, getLogger_eq]

theorem Step.map_effects {α β : Type} (f : α → β) (step : Step α) :
    (step.map f).effects = step.effects := by
  obtain ⟨outcome, client, effects⟩ := step
  cases outcome <;> rfl

theorem Step.map_client {α β : Type} (f : α → β) (step : Step α) :
    (step.map f).client = step.client := by
  obtain ⟨outcome, client, effects⟩ := step
  cases outcome <;> rfl

theorem Step.map_outcome {α β : Type} (f : α → β) (step : Step α) :
    (step.map f).outcome =
      match step.outcome with
      | .returned value => .returned (f value)
      | .panicked reason => .panicked reason := by
  obtain ⟨outcome, client, effects⟩ := step
  cases outcome <;> rfl

theorem SetLogLevel_outcome (deps : Deps) (client : Szproduct) (ctx : Context)
    (logLevelName : String) :
    (client.SetLogLevel deps ctx logLevelName).outcome =
      if IsValidLogLevelName logLevelName then
        .returned ((client.logger.getD { level := "INFO" }).SetLogLevel logLevelName).2
      else .returned (some (.errorf ("invalid error level: " ++ logLevelName))) := by
  obtain ⟨g, t, l, o, obs⟩ := client
  cases hValid : IsValidLogLevelName logLevelName <;> cases t <;>
    simp [Szproduct.SetLogLevel, enter_eq, leave_eq, getLogger_eq, hValid]

theorem RegisterObserver_observers (deps : Deps) (client : Szproduct) (ctx : Context)
    (observer : Observer) :
    (client.RegisterObserver deps ctx observer).client.observers =
      some ((client.observers.getD { observers := [] }).RegisterObserver ctx observer).1 := by
  obtain ⟨g, t, l, o, obs⟩ := client
  cases t <;> cases obs <;> simp [Szproduct.RegisterObserver, enter_eq, leave_eq]

theorem UnregisterObserver_observers (deps : Deps) (client : Szproduct) (ctx : Context)
    (observer : Observer) :
    (client.UnregisterObserver deps ctx observer).client.observers =
      match client.observers with
      | none => none
      | some hub =>
        if (hub.UnregisterObserver ctx observer).1.HasObservers ctx then
          some (hub.UnregisterObserver ctx observer).1
        else none := by
  obtain ⟨g, t, l, o, obs⟩ := client
  cases t <;> cases obs <;> simp [Szproduct.UnregisterObserver, enter_eq, leave_eq] <;>
    split <;> simp_all

theorem stillRegistered_nil (observer : Observer) : ¬ stillRegistered [] observer := by
  rintro ⟨before, after, h, -⟩
  simp at h

theorem stillRegistered_concat (ops : List ObserverOp) (op : ObserverOp) (observer : Observer) :
    stillRegistered (ops ++ [op]) observer ↔
      op = .register observer ∨ (op ≠ .unregister observer ∧ stillRegistered ops observer) := by
  constructor
  · rintro ⟨before, after, h, hAfter⟩
    rcases List.eq_nil_or_concat after with rfl | ⟨rest, last, rfl⟩
    · have h1 := List.append_inj' h (by simp)
      left
      simpa using h1.2
    · rw [List.concat_eq_append] at h hAfter
      have h2 : ops ++ [op] = (before ++ .register observer :: rest) ++ [last] := by
        simpa using h
      have h1 := List.append_inj' h2 (by simp)
      have hop : op = last := by simpa using h1.2
      subst hop
      right
      refine ⟨?_, before, rest, h1.1, ?_⟩
      · intro hEq
        exact hAfter (by simp [hEq])
      · intro hMem
        exact hAfter (by simp [hMem])
  · rintro (rfl | ⟨hne, before, after, rfl, hAfter⟩)
    · exact ⟨ops, [], rfl, by simp⟩
    · refine ⟨before, after ++ [op], by simp, ?_⟩
      simp only [List.mem_append, List.mem_singleton, not_or]
      exact ⟨hAfter, fun hEq => hne hEq.symm⟩

theorem GetLicense_outcome (deps : Deps) (client : Szproduct) (ctx : Context) :
    (client.GetLicense deps ctx).outcome =
      .returned (GetResult (client.GrpcClient.GetLicense ctx client.GrpcClient.calls).1,
        deps.ConvertGrpcError (client.GrpcClient.GetLicense ctx client.GrpcClient.calls).2) := by
  obtain ⟨g, t, l, o, obs⟩ := client
  cases t <;> simp [Szproduct.GetLicense, enter_eq, leave_eq]

theorem GetVersion_outcome (deps : Deps) (client : Szproduct) (ctx : Context) :
    (client.GetVersion deps ctx).outcome =
      .returned (GetResult (client.GrpcClient.GetVersion ctx client.GrpcClient.calls).1,
        deps.ConvertGrpcError (client.GrpcClient.GetVersion ctx client.GrpcClient.calls).2) := by
  obtain ⟨g, t, l, o, obs⟩ := client
  cases t <;> simp [Szproduct.GetVersion, enter_eq, leave_eq]

/-! ## The remote call: result, error, and number of invocations -/

/-- C1: for every facade, context and remote answer, GetLicense and GetVersion return
as their error the output of the classifier (ConvertGrpcError) on the raw error of the
remote call, whether that raw error is nil or not. -/
theorem GetLicense_GetVersion_error_is_classified (deps : Deps) (client : Szproduct)
    (ctx : Context) :
    (client.GetLicense deps ctx).outcome =
        .returned (GetResult (client.GrpcClient.GetLicense ctx client.GrpcClient.calls).1,
          deps.ConvertGrpcError (client.GrpcClient.GetLicense ctx client.GrpcClient.calls).2) ∧
      (client.GetVersion deps ctx).outcome =
        .returned (GetResult (client.GrpcClient.GetVersion ctx client.GrpcClient.calls).1,
          deps.ConvertGrpcError (client.GrpcClient.GetVersion ctx client.GrpcClient.calls).2) :=
  ⟨GetLicense_outcome deps client ctx, GetVersion_outcome deps client ctx⟩

/-- C2: whatever result string the remote response carries, GetLicense returns exactly
that string, and so does GetVersion, each whatever the remote side answers to the
other. -/
theorem GetLicense_GetVersion_result_verbatim (deps : Deps) (client : Szproduct)
    (ctx : Context) :
    (∀ license : String,
        (client.GrpcClient.GetLicense ctx client.GrpcClient.calls).1 =
            some { result := license } →
          ∃ err, (client.GetLicense deps ctx).outcome = .returned (license, err)) ∧
      (∀ version : String,
        (client.GrpcClient.GetVersion ctx client.GrpcClient.calls).1 =
            some { result := version } →
          ∃ err, (client.GetVersion deps ctx).outcome = .returned (version, err)) := by
  constructor
  · intro license hLicense
    have h := GetLicense_outcome deps client ctx
    rw [hLicense] at h
    exact ⟨_, h⟩
  · intro version hVersion
    have h := GetVersion_outcome deps client ctx
    rw [hVersion] at h
    exact ⟨_, h⟩

theorem GetLicense_GetVersion_result_verbatim_witness :
    ((freshFacade.GetVersion sampleDeps sampleCtx).client.GrpcClient.GetVersion sampleCtx
        (freshFacade.GetVersion sampleDeps sampleCtx).client.GrpcClient.calls).1 = none ∧
      (∃ err, ((freshFacade.GetVersion sampleDeps sampleCtx).client.GetLicense sampleDeps
        sampleCtx).outcome = .returned (sampleLicense, err)) ∧
      (∃ err, (freshFacade.GetVersion sampleDeps sampleCtx).outcome =
        .returned (sampleVersion, err)) :=
  ⟨by decide,
    (GetLicense_GetVersion_result_verbatim sampleDeps
      (freshFacade.GetVersion sampleDeps sampleCtx).client sampleCtx).1 sampleLicense rfl,
    (GetLicense_GetVersion_result_verbatim sampleDeps freshFacade sampleCtx).2
      sampleVersion rfl⟩

/-- C10: every call of GetLicense or GetVersion invokes the remote capability exactly
once, whatever the remote side answers: the effects of the call hold one RPC invocation,
of the matching procedure, and the invocation count of the client goes up by one. -/
theorem GetLicense_GetVersion_invoke_remote_once (deps : Deps) (client : Szproduct)
    (ctx : Context) :
    (rpcCalls (client.GetLicense deps ctx).effects = [(.GetLicense, ctx)] ∧
      (client.GetLicense deps ctx).client.GrpcClient.calls = client.GrpcClient.calls + 1) ∧
    (rpcCalls (client.GetVersion deps ctx).effects = [(.GetVersion, ctx)] ∧
      (client.GetVersion deps ctx).client.GrpcClient.calls = client.GrpcClient.calls + 1) := by
  cases client with
  | mk g t l o obs =>
    cases t <;> cases obs <;>
      simp [Szproduct.GetLicense, Szproduct.GetVersion, enter_eq, leave_eq,
        Szproduct.notifySpawned, rpcCalls]

/-! ## Notifications -/

/-- C3, as stated, fails: with an observer registered, SetLogLevel called with a name
that is not a log level returns its error and issues no notification. -/
theorem SetLogLevel_invalid_name_issues_no_notification :
    observedFacade.observers = some { observers := [{ ObserverID := "observer-1" }] } ∧
      (observedFacade.call sampleDeps (.SetLogLevel sampleCtx "LOUD")).outcome =
        .returned (none, some (.errorf "invalid error level: LOUD")) ∧
      notifications (observedFacade.call sampleDeps (.SetLogLevel sampleCtx "LOUD")).effects
        = [] := by
  decide

/-- C3, amended: when the hub exists, every call issues exactly one notification, whether
it succeeds or fails, except a SetLogLevel that the guard on the log level name rejects,
which issues none. -/
theorem one_notification_per_call (deps : Deps) (client : Szproduct) (call : Call)
    (hub : SimpleSubject) (hHub : client.observers = some hub) :
    (notifications (client.call deps call).effects).length =
      if call.isRejected then 0 else 1 := by
  obtain ⟨g, t, l, o, obs⟩ := client
  simp only at hHub
  subst hHub
  cases call <;> cases t <;>
    simp [Szproduct.call, Step.map_effects, Szproduct.Destroy, Szproduct.GetLicense,
      Szproduct.GetVersion, Szproduct.Initialize, Szproduct.RegisterObserver,
      Szproduct.SetLogLevel, Szproduct.UnregisterObserver, enter_eq, leave_eq, getLogger_eq,
      Szproduct.notifySpawned, notifications, Call.isRejected] <;>
    split <;> simp [notifications]

theorem one_notification_per_call_witness :
    observedFacade.observers = some { observers := [{ ObserverID := "observer-1" }] } ∧
      (notifications (observedFacade.call sampleDeps (.GetLicense sampleCtx)).effects).length =
        if (Call.GetLicense sampleCtx).isRejected then 0 else 1 :=
  ⟨by decide,
    one_notification_per_call sampleDeps observedFacade (.GetLicense sampleCtx)
      { observers := [{ ObserverID := "observer-1" }] } (by decide)⟩

/-- C4, as stated, fails: with one observer registered, UnregisterObserver of an observer
that is absent returns the NotRegistered error of the hub, while the notification it
issued, before the removal, carries a nil failure value. -/
theorem UnregisterObserver_notifies_nil_and_returns_error :
    (observedFacade.call sampleDeps
        (.UnregisterObserver sampleCtx { ObserverID := "observer-2" })).outcome =
        .returned (none, some (.notRegistered "observer-2")) ∧
      (notifications (observedFacade.call sampleDeps
        (.UnregisterObserver sampleCtx { ObserverID := "observer-2" })).effects).map
          (fun n => n.err) = [none] := by
  decide

/-- C4, amended: every notification that a call issues belongs to a call that returns,
and its failure value is the error returned to the caller for Destroy, Initialize,
GetLicense, GetVersion, RegisterObserver and SetLogLevel; the notification of
UnregisterObserver is issued before the removal and carries nil whatever the call then
returns. -/
theorem notification_carries_returned_error (deps : Deps) (client : Szproduct) (call : Call)
    (n : Notification) (hn : n ∈ notifications (client.call deps call).effects) :
    ∃ value, (client.call deps call).outcome = .returned value ∧
      n.err = if call.isUnregister then none else value.2 := by
  obtain ⟨g, t, l, o, obs⟩ := client
  revert hn
  cases call <;> cases t <;> cases obs <;>
    simp [Szproduct.call, Step.map_effects, Step.map_outcome, Szproduct.Destroy,
      Szproduct.GetLicense, Szproduct.GetVersion, Szproduct.Initialize,
      Szproduct.RegisterObserver, Szproduct.SetLogLevel, Szproduct.UnregisterObserver,
      enter_eq, leave_eq, getLogger_eq, Szproduct.notifySpawned, notifications,
      Call.isUnregister] <;>
    (try split) <;> (try simp [notifications]) <;> (try (rintro rfl; rfl))

theorem notification_carries_returned_error_witness :
    failedVersionNotification ∈
      notifications ((observedFacade.GetVersion sampleDeps sampleCtx).client.call sampleDeps
        (.GetVersion sampleCtx)).effects ∧
    ∃ value, ((observedFacade.GetVersion sampleDeps sampleCtx).client.call sampleDeps
        (.GetVersion sampleCtx)).outcome = .returned value ∧
      failedVersionNotification.err =
        if (Call.GetVersion sampleCtx).isUnregister then none else value.2 :=
  ⟨by decide,
    notification_carries_returned_error sampleDeps
      (observedFacade.GetVersion sampleDeps sampleCtx).client (.GetVersion sampleCtx)
      failedVersionNotification (by decide)⟩

/-- C8, as stated, fails: UnregisterObserver makes its Notify call on the calling path,
not in a spawned task. -/
theorem UnregisterObserver_notifies_on_calling_path :
    (notifications (observedFacade.call sampleDeps
        (.UnregisterObserver sampleCtx { ObserverID := "observer-1" })).effects).map
          (fun n => n.spawned) = [false] := by
  decide

/-- C8, amended: Destroy, Initialize, GetLicense, GetVersion, RegisterObserver and
SetLogLevel hand every Notify call they issue to a spawned task; UnregisterObserver makes
its Notify call on the calling path, before it removes the observer. -/
theorem notification_spawned_unless_unregister (deps : Deps) (client : Szproduct)
    (call : Call) (n : Notification)
    (hn : n ∈ notifications (client.call deps call).effects) :
    n.spawned = !call.isUnregister := by
  obtain ⟨g, t, l, o, obs⟩ := client
  revert hn
  cases call <;> cases t <;> cases obs <;>
    simp [Szproduct.call, Step.map_effects, Szproduct.Destroy,
      Szproduct.GetLicense, Szproduct.GetVersion, Szproduct.Initialize,
      Szproduct.RegisterObserver, Szproduct.SetLogLevel, Szproduct.UnregisterObserver,
      enter_eq, leave_eq, getLogger_eq, Szproduct.notifySpawned, notifications,
      Call.isUnregister] <;>
    (try split) <;> (try simp [notifications]) <;> (try (rintro rfl; rfl))

theorem notification_spawned_unless_unregister_witness :
    failedVersionNotification ∈
      notifications ((observedFacade.GetVersion sampleDeps sampleCtx).client.call sampleDeps
        (.GetVersion sampleCtx)).effects ∧
    failedVersionNotification.spawned = !(Call.GetVersion sampleCtx).isUnregister :=
  ⟨by decide,
    notification_spawned_unless_unregister sampleDeps
      (observedFacade.GetVersion sampleDeps sampleCtx).client (.GetVersion sampleCtx)
      failedVersionNotification (by decide)⟩

/-- C9: the values returned by Destroy, Initialize, GetLicense, GetVersion and SetLogLevel
do not depend on the observers: from two facades that differ only in the hub, the same
call, with the same remote side, ends the same way, with the same result and error. -/
theorem returned_values_independent_of_observers (deps : Deps) (client : Szproduct)
    (call : Call) (observers1 : Option SimpleSubject) (observers2 : Option SimpleSubject)
    (hCall : call.isObserverCall = false) :
    ({ client with observers := observers1 }.call deps call).outcome =
      ({ client with observers := observers2 }.call deps call).outcome := by
  obtain ⟨g, t, l, o, obs⟩ := client
  revert hCall
  cases call <;> cases t <;>
    simp [Szproduct.call, Step.map_outcome, Szproduct.Destroy,
      Szproduct.GetLicense, Szproduct.GetVersion, Szproduct.Initialize,
      SetLogLevel_outcome, enter_eq, leave_eq, Call.isObserverCall]

theorem returned_values_independent_of_observers_witness :
    (Call.SetLogLevel sampleCtx "TRACE").isObserverCall = false ∧
      ({ freshFacade with observers := none }.call sampleDeps
          (.SetLogLevel sampleCtx "TRACE")).outcome =
        ({ freshFacade with
            observers := some { observers := [{ ObserverID := "observer-1" }] } }.call
          sampleDeps (.SetLogLevel sampleCtx "TRACE")).outcome :=
  ⟨rfl,
    returned_values_independent_of_observers sampleDeps freshFacade
      (.SetLogLevel sampleCtx "TRACE") none
      (some { observers := [{ ObserverID := "observer-1" }] }) rfl⟩

/-! ## The facade has no Destroyed state -/

/-- C7, as stated, fails: GetLicense called after Destroy returns the license of the
remote response and a nil error. -/
theorem GetLicense_after_Destroy_succeeds :
    (freshFacade.Destroy sampleDeps sampleCtx).outcome = .returned none ∧
      ((freshFacade.Destroy sampleDeps sampleCtx).client.GetLicense sampleDeps
        sampleCtx).outcome = .returned (sampleLicense, none) := by
  decide

/-- C7, amended: Destroy is a null operation that returns nil; GetLicense and GetVersion
called after it end as they would have without it, returning the result string of the
remote response and the classified error. -/
theorem GetLicense_GetVersion_after_Destroy_unchanged (deps : Deps) (client : Szproduct)
    (ctx : Context) (ctx1 : Context) :
    (client.Destroy deps ctx).outcome = .returned none ∧
      ((client.Destroy deps ctx).client.GetLicense deps ctx1).outcome =
        (client.GetLicense deps ctx1).outcome ∧
      ((client.Destroy deps ctx).client.GetVersion deps ctx1).outcome =
        (client.GetVersion deps ctx1).outcome := by
  obtain ⟨g, t, l, o, obs⟩ := client
  cases t <;>
    simp [Szproduct.Destroy, Szproduct.GetLicense, Szproduct.GetVersion, enter_eq, leave_eq]

/-! ## Registration of observers -/

/-- C5: on a fresh facade, where the hub is nil, UnregisterObserver does not return an
error: the method call on the nil hub panics.  The same happens once the last observer
was unregistered and the hub was set to nil again. -/
theorem UnregisterObserver_without_hub_panics :
    (freshFacade.UnregisterObserver sampleDeps sampleCtx { ObserverID := "observer-1" }).outcome
        = .panicked "invalid memory address or nil pointer dereference" ∧
      (observedFacade.UnregisterObserver sampleDeps sampleCtx
        { ObserverID := "observer-1" }).outcome = .returned none ∧
      (((observedFacade.UnregisterObserver sampleDeps sampleCtx
        { ObserverID := "observer-1" }).client).UnregisterObserver sampleDeps sampleCtx
          { ObserverID := "observer-1" }).outcome
        = .panicked "invalid memory address or nil pointer dereference" := by
  decide

theorem afterObserverOp_observers (deps : Deps) (ctx : Context) (client : Szproduct)
    (op : ObserverOp) (pending : List Observer) (hNodup : pending.Nodup)
    (hHub : client.observers = hubOf pending) :
    ∃ pending1 : List Observer, pending1.Nodup ∧
      (client.afterObserverOp deps ctx op).observers = hubOf pending1 ∧
      ∀ observer, observer ∈ pending1 ↔
        op = .register observer ∨ (op ≠ .unregister observer ∧ observer ∈ pending) := by
  cases op with
  | register added =>
    by_cases hMem : added ∈ pending
    · refine ⟨pending, hNodup, ?_, ?_⟩
      · have hne : pending ≠ [] := List.ne_nil_of_mem hMem
        simp [Szproduct.afterObserverOp, RegisterObserver_observers, hHub, hubOf, hne,
          SimpleSubject.RegisterObserver, hMem]
      · intro observer
        constructor
        · intro h
          exact Or.inr ⟨by simp, h⟩
        · rintro (h | ⟨-, h⟩)
          · cases h
            exact hMem
          · exact h
    · refine ⟨pending ++ [added], ?_, ?_, ?_⟩
      · rw [← List.concat_eq_append]
        exact List.Nodup.concat hMem hNodup
      · by_cases hne : pending = []
        · subst hne
          simp [Szproduct.afterObserverOp, RegisterObserver_observers, hHub, hubOf,
            SimpleSubject.RegisterObserver]
        · simp [Szproduct.afterObserverOp, RegisterObserver_observers, hHub, hubOf, hne,
            SimpleSubject.RegisterObserver, hMem]
      · intro observer
        simp only [List.mem_append, List.mem_singleton]
        constructor
        · rintro (h | h)
          · exact Or.inr ⟨by simp, h⟩
          · exact Or.inl (by rw [h])
        · rintro (h | ⟨-, h⟩)
          · cases h
            exact Or.inr rfl
          · exact Or.inl h
  | unregister removed =>
    refine ⟨pending.erase removed, hNodup.erase removed, ?_, ?_⟩
    · by_cases hne : pending = []
      · subst hne
        simp [Szproduct.afterObserverOp, UnregisterObserver_observers, hHub, hubOf]
      · by_cases hMem : removed ∈ pending
        · by_cases hLast : pending.erase removed = []
          · simp [Szproduct.afterObserverOp, UnregisterObserver_observers, hHub, hubOf, hne,
              SimpleSubject.UnregisterObserver, SimpleSubject.HasObservers, hMem, hLast]
          · simp [Szproduct.afterObserverOp, UnregisterObserver_observers, hHub, hubOf, hne,
              SimpleSubject.UnregisterObserver, SimpleSubject.HasObservers, hMem, hLast]
        · simp [Szproduct.afterObserverOp, UnregisterObserver_observers, hHub, hubOf, hne,
            SimpleSubject.UnregisterObserver, SimpleSubject.HasObservers, hMem,
            List.erase_of_not_mem hMem]
    · intro observer
      rw [hNodup.mem_erase_iff]
      constructor
      · rintro ⟨h1, h2⟩
        refine Or.inr ⟨?_, h2⟩
        intro hEq
        cases hEq
        exact h1 rfl
      · rintro (h | ⟨h1, h2⟩)
        · cases h
        · exact ⟨fun hEq => h1 (by rw [hEq]), h2⟩

theorem afterObserverOps_observers (deps : Deps) (ctx : Context) (client : Szproduct)
    (hFresh : client.observers = none) (ops : List ObserverOp) :
    ∃ pending : List Observer, pending.Nodup ∧
      (client.afterObserverOps deps ctx ops).observers = hubOf pending ∧
      ∀ observer, observer ∈ pending ↔ stillRegistered ops observer := by
  induction ops using List.reverseRecOn with
  | nil =>
    refine ⟨[], List.nodup_nil, ?_, ?_⟩
    · simpa [Szproduct.afterObserverOps, hubOf] using hFresh
    · intro observer
      simp [stillRegistered_nil]
  | append_singleton ops op ih =>
    obtain ⟨pending, hNodup, hHub, hMem⟩ := ih
    obtain ⟨pending1, hNodup1, hHub1, hMem1⟩ :=
      afterObserverOp_observers deps ctx (client.afterObserverOps deps ctx ops) op pending
        hNodup hHub
    refine ⟨pending1, hNodup1, ?_, ?_⟩
    · simpa [Szproduct.afterObserverOps, List.foldl_append] using hHub1
    · intro observer
      rw [hMem1, stillRegistered_concat, hMem]

/-- C6: after any sequence of RegisterObserver and UnregisterObserver calls on a facade
that starts without a hub, the hub exists and has observers exactly when some observer
registered by the sequence was not unregistered later in it, and the hub is nil exactly
when there is none; when the hub exists it holds exactly those observers.  So the first
RegisterObserver creates the hub and the UnregisterObserver that removes the last
observer sets it to nil. -/
theorem hub_exists_iff_observer_still_registered (deps : Deps) (ctx : Context)
    (client : Szproduct) (ops : List ObserverOp) (hFresh : client.observers = none) :
    ((∃ hub, (client.afterObserverOps deps ctx ops).observers = some hub ∧
        hub.HasObservers ctx = true) ↔ ∃ observer, stillRegistered ops observer) ∧
      ((client.afterObserverOps deps ctx ops).observers = none ↔
        ¬ ∃ observer, stillRegistered ops observer) ∧
      ∀ hub, (client.afterObserverOps deps ctx ops).observers = some hub →
        ∀ observer, observer ∈ hub.observers ↔ stillRegistered ops observer := by
  obtain ⟨pending, -, hHub, hMem⟩ := afterObserverOps_observers deps ctx client hFresh ops
  rw [hHub]
  by_cases hne : pending = []
  · subst hne
    have hNone : ¬ ∃ observer, stillRegistered ops observer := by
      rintro ⟨observer, h⟩
      exact List.not_mem_nil observer ((hMem observer).2 h)
    simp [hubOf, hNone]
  · obtain ⟨first, hFirst⟩ := List.exists_mem_of_ne_nil pending hne
    have hSome : ∃ observer, stillRegistered ops observer := ⟨first, (hMem first).1 hFirst⟩
    refine ⟨?_, ?_, ?_⟩
    · simp [hubOf, hne, hSome, SimpleSubject.HasObservers]
    · simp [hubOf, hne, hSome]
    · intro hub hEq observer
      simp only [hubOf, hne, if_false, Option.some.injEq] at hEq
      subst hEq
      exact hMem observer

theorem hub_exists_iff_observer_still_registered_witness :
    freshFacade.observers = none ∧
    (((∃ hub, (freshFacade.afterObserverOps sampleDeps sampleCtx sampleOps).observers =
          some hub ∧ hub.HasObservers sampleCtx = true) ↔
        ∃ observer, stillRegistered sampleOps observer) ∧
      ((freshFacade.afterObserverOps sampleDeps sampleCtx sampleOps).observers = none ↔
        ¬ ∃ observer, stillRegistered sampleOps observer) ∧
      ∀ hub, (freshFacade.afterObserverOps sampleDeps sampleCtx sampleOps).observers =
          some hub → ∀ observer, observer ∈ hub.observers ↔
            stillRegistered sampleOps observer) :=
  ⟨rfl,
    hub_exists_iff_observer_still_registered sampleDeps sampleCtx freshFacade sampleOps rfl⟩

/-! ## Context, event codes, origin -/

theorem notifications_append (xs : List Effect) (ys : List Effect) :
    notifications (xs ++ ys) = notifications xs ++ notifications ys := by
  induction xs with
  | nil => rfl
  | cons x xs ih => cases x <;> simp [notifications, ih]

theorem call_observerOrigin (deps : Deps) (client : Szproduct) (call : Call) :
    (client.call deps call).client.observerOrigin = client.observerOrigin := by
  obtain ⟨g, t, l, o, obs⟩ := client
  cases call <;> cases t <;> cases obs <;>
    simp [Szproduct.call, Step.map_client, Szproduct.Destroy, Szproduct.GetLicense,
      Szproduct.GetVersion, Szproduct.Initialize, Szproduct.RegisterObserver,
      Szproduct.SetLogLevel, Szproduct.UnregisterObserver, enter_eq, leave_eq, getLogger_eq] <;>
    (try split) <;> (try simp)

theorem call_notification_messageID (deps : Deps) (client : Szproduct) (call : Call)
    (n : Notification) (hn : n ∈ notifications (client.call deps call).effects) :
    n.messageID =
      match call.operation with
      | .Destroy => 8001
      | .Initialize => 8002
      | .GetLicense => 8003
      | .GetVersion => 8006
      | .RegisterObserver => 8008
      | .SetLogLevel => 8009
      | .UnregisterObserver => 8010 := by
  obtain ⟨g, t, l, o, obs⟩ := client
  revert hn
  cases call <;> cases t <;> cases obs <;>
    simp [Szproduct.call, Step.map_effects, Szproduct.Destroy,
      Szproduct.GetLicense, Szproduct.GetVersion, Szproduct.Initialize,
      Szproduct.RegisterObserver, Szproduct.SetLogLevel, Szproduct.UnregisterObserver,
      enter_eq, leave_eq, getLogger_eq, Szproduct.notifySpawned, notifications,
      Call.operation] <;>
    (try split) <;> (try simp [notifications]) <;> (try (rintro rfl; rfl))

/-- C11: GetLicense and GetVersion forward the context of the caller to the RPC client
unchanged: the one invocation each makes carries the very context passed in, and the
answer returned is the answer of the remote side for that context. -/
theorem GetLicense_GetVersion_forward_context (deps : Deps) (client : Szproduct)
    (ctx : Context) :
    ((rpcCalls (client.GetLicense deps ctx).effects).map Prod.snd = [ctx] ∧
      (client.GetLicense deps ctx).outcome =
        .returned (GetResult (client.GrpcClient.GetLicense ctx client.GrpcClient.calls).1,
          deps.ConvertGrpcError (client.GrpcClient.GetLicense ctx client.GrpcClient.calls).2)) ∧
    ((rpcCalls (client.GetVersion deps ctx).effects).map Prod.snd = [ctx] ∧
      (client.GetVersion deps ctx).outcome =
        .returned (GetResult (client.GrpcClient.GetVersion ctx client.GrpcClient.calls).1,
          deps.ConvertGrpcError
            (client.GrpcClient.GetVersion ctx client.GrpcClient.calls).2)) := by
  refine ⟨⟨?_, GetLicense_outcome deps client ctx⟩, ⟨?_, GetVersion_outcome deps client ctx⟩⟩
  · obtain ⟨g, t, l, o, obs⟩ := client
    cases t <;> cases obs <;>
      simp [Szproduct.GetLicense, enter_eq, leave_eq, Szproduct.notifySpawned, rpcCalls]
  · obtain ⟨g, t, l, o, obs⟩ := client
    cases t <;> cases obs <;>
      simp [Szproduct.GetVersion, enter_eq, leave_eq, Szproduct.notifySpawned, rpcCalls]

/-- C12: the event codes passed to Notify by the seven methods are pairwise distinct:
two notifications with the same code, issued by any two calls on any two facades, come
from calls of the same method. -/
theorem event_code_identifies_operation (deps : Deps) (client1 : Szproduct)
    (client2 : Szproduct) (call1 : Call) (call2 : Call) (n1 : Notification)
    (n2 : Notification)
    (h1 : n1 ∈ notifications (client1.call deps call1).effects)
    (h2 : n2 ∈ notifications (client2.call deps call2).effects)
    (hCode : n1.messageID = n2.messageID) :
    call1.operation = call2.operation := by
  have e1 := call_notification_messageID deps client1 call1 n1 h1
  have e2 := call_notification_messageID deps client2 call2 n2 h2
  rw [e1, e2] at hCode
  revert hCode
  cases call1.operation <;> cases call2.operation <;> simp

theorem event_code_identifies_operation_witness :
    (failedVersionNotification ∈
        notifications ((observedFacade.GetVersion sampleDeps sampleCtx).client.call sampleDeps
          (.GetVersion sampleCtx)).effects ∧
      failedVersionNotification ∈
        notifications ((observedFacade.GetVersion sampleDeps sampleCtx).client.call sampleDeps
          (.GetVersion sampleCtx)).effects ∧
      failedVersionNotification.messageID = failedVersionNotification.messageID) ∧
    (Call.GetVersion sampleCtx).operation = (Call.GetVersion sampleCtx).operation :=
  ⟨⟨by decide, by decide, rfl⟩,
    event_code_identifies_operation sampleDeps
      (observedFacade.GetVersion sampleDeps sampleCtx).client
      (observedFacade.GetVersion sampleDeps sampleCtx).client
      (.GetVersion sampleCtx) (.GetVersion sampleCtx)
      failedVersionNotification failedVersionNotification (by decide) (by decide) rfl⟩

/-- C13: when the hub is absent, Destroy, Initialize, GetLicense, GetVersion and
SetLogLevel issue no Notify call, so no detail map is built either. -/
theorem no_notification_without_hub (deps : Deps) (client : Szproduct) (call : Call)
    (hHub : client.observers = none) (hCall : call.isObserverCall = false) :
    notifications (client.call deps call).effects = [] := by
  obtain ⟨g, t, l, o, obs⟩ := client
  simp only at hHub
  subst hHub
  revert hCall
  cases call <;> cases t <;>
    simp [Szproduct.call, Step.map_effects, Szproduct.Destroy, Szproduct.GetLicense,
      Szproduct.GetVersion, Szproduct.Initialize, Szproduct.SetLogLevel, enter_eq, leave_eq,
      getLogger_eq, Szproduct.notifySpawned, notifications, Call.isObserverCall] <;>
    split <;> simp [notifications]

theorem no_notification_without_hub_witness :
    (freshFacade.observers = none ∧ (Call.GetLicense sampleCtx).isObserverCall = false) ∧
      notifications (freshFacade.call sampleDeps (.GetLicense sampleCtx)).effects = [] :=
  ⟨⟨rfl, rfl⟩,
    no_notification_without_hub sampleDeps freshFacade (.GetLicense sampleCtx) rfl rfl⟩

theorem runCalls_observerOrigin (deps : Deps) (calls : List Call) (client : Szproduct) :
    (client.runCalls deps calls).1.observerOrigin = client.observerOrigin := by
  induction calls generalizing client with
  | nil => rfl
  | cons call rest ih =>
    simp only [Szproduct.runCalls]
    rw [ih, call_observerOrigin]

/-- C14: SetObserverOrigin followed by GetObserverOrigin returns the origin that was
set, and after several calls of SetObserverOrigin the last origin set is returned. -/
theorem GetObserverOrigin_returns_last_set (client : Szproduct) (ctx : Context)
    (ctx1 : Context) (earlier : List String) (origin : String) :
    (client.SetObserverOrigin ctx origin).GetObserverOrigin ctx1 = origin ∧
      (client.setOrigins ctx (earlier ++ [origin])).GetObserverOrigin ctx1 = origin := by
  constructor
  · rfl
  · simp [Szproduct.setOrigins, List.foldl_append, Szproduct.GetObserverOrigin,
      Szproduct.SetObserverOrigin]

/-! ## Null operations and the rejected log level -/

theorem Initialize_frame (deps : Deps) (client : Szproduct) (ctx : Context)
    (instanceName : String) (settings : String) (verboseLogging : Int) :
    (client.Initialize deps ctx instanceName settings verboseLogging).outcome = .returned none ∧
      rpcCalls (client.Initialize deps ctx instanceName settings verboseLogging).effects = [] ∧
      (client.Initialize deps ctx instanceName settings verboseLogging).client.GrpcClient.calls
        = client.GrpcClient.calls ∧
      (client.Initialize deps ctx instanceName settings verboseLogging).client.observerOrigin
        = client.observerOrigin ∧
      (client.Initialize deps ctx instanceName settings verboseLogging).client.observers
        = client.observers ∧
      (client.Initialize deps ctx instanceName settings verboseLogging).client.isTrace
        = client.isTrace := by
  obtain ⟨g, t, l, o, obs⟩ := client
  cases t <;> cases obs <;>
    simp [Szproduct.Initialize, enter_eq, leave_eq, Szproduct.notifySpawned, rpcCalls]

theorem Destroy_frame (deps : Deps) (client : Szproduct) (ctx : Context) :
    (client.Destroy deps ctx).outcome = .returned none ∧
      rpcCalls (client.Destroy deps ctx).effects = [] ∧
      (client.Destroy deps ctx).client.GrpcClient.calls = client.GrpcClient.calls ∧
      (client.Destroy deps ctx).client.observerOrigin = client.observerOrigin ∧
      (client.Destroy deps ctx).client.observers = client.observers ∧
      (client.Destroy deps ctx).client.isTrace = client.isTrace := by
  obtain ⟨g, t, l, o, obs⟩ := client
  cases t <;> cases obs <;>
    simp [Szproduct.Destroy, enter_eq, leave_eq, Szproduct.notifySpawned, rpcCalls]

/-- C16: Initialize and Destroy are null operations: for every facade and all arguments
they return a nil error, invoke the remote capability not at all, and leave the origin,
the observers and the trace flag as they were; the same holds after Initialize was
called any number of times. -/
theorem Initialize_Destroy_are_null_operations (deps : Deps) (client : Szproduct)
    (ctx : Context) (instanceName : String) (settings : String) (verboseLogging : Int)
    (times : Nat) :
    ((client.Initialize deps ctx instanceName settings verboseLogging).outcome
        = .returned none ∧
      rpcCalls (client.Initialize deps ctx instanceName settings verboseLogging).effects = [] ∧
      (client.Initialize deps ctx instanceName settings verboseLogging).client.GrpcClient.calls
        = client.GrpcClient.calls ∧
      (client.Initialize deps ctx instanceName settings verboseLogging).client.observerOrigin
        = client.observerOrigin ∧
      (client.Initialize deps ctx instanceName settings verboseLogging).client.observers
        = client.observers ∧
      (client.Initialize deps ctx instanceName settings verboseLogging).client.isTrace
        = client.isTrace) ∧
    ((client.Destroy deps ctx).outcome = .returned none ∧
      rpcCalls (client.Destroy deps ctx).effects = [] ∧
      (client.Destroy deps ctx).client.GrpcClient.calls = client.GrpcClient.calls ∧
      (client.Destroy deps ctx).client.observerOrigin = client.observerOrigin ∧
      (client.Destroy deps ctx).client.observers = client.observers ∧
      (client.Destroy deps ctx).client.isTrace = client.isTrace) ∧
    (((fun facade : Szproduct =>
          (facade.Initialize deps ctx instanceName settings verboseLogging).client)^[times]
        client).GrpcClient.calls = client.GrpcClient.calls ∧
      ((fun facade : Szproduct =>
          (facade.Initialize deps ctx instanceName settings verboseLogging).client)^[times]
        client).observerOrigin = client.observerOrigin ∧
      ((fun facade : Szproduct =>
          (facade.Initialize deps ctx instanceName settings verboseLogging).client)^[times]
        client).observers = client.observers ∧
      ((fun facade : Szproduct =>
          (facade.Initialize deps ctx instanceName settings verboseLogging).client)^[times]
        client).isTrace = client.isTrace) := by
  refine ⟨Initialize_frame deps client ctx instanceName settings verboseLogging,
    Destroy_frame deps client ctx, ?_⟩
  induction times with
  | zero => simp
  | succ k ih =>
    rw [Function.iterate_succ_apply']
    obtain ⟨-, -, h1, h2, h3, h4⟩ := Initialize_frame deps
      ((fun facade : Szproduct =>
        (facade.Initialize deps ctx instanceName settings verboseLogging).client)^[k] client)
      ctx instanceName settings verboseLogging
    exact ⟨h1.trans ih.1, h2.trans ih.2.1, h3.trans ih.2.2.1, h4.trans ih.2.2.2⟩

/-- C17: for a name that is not a log level name, SetLogLevel returns the error
"invalid error level: " followed by the name and changes nothing: the trace flag, the
logger and its level, the origin and the observers are as they were before the call. -/
theorem SetLogLevel_rejects_invalid_name (deps : Deps) (client : Szproduct) (ctx : Context)
    (logLevelName : String) (hInvalid : IsValidLogLevelName logLevelName = false) :
    (client.SetLogLevel deps ctx logLevelName).outcome =
        .returned (some (.errorf ("invalid error level: " ++ logLevelName))) ∧
      (client.SetLogLevel deps ctx logLevelName).client.isTrace = client.isTrace ∧
      (∀ logger, client.logger = some logger →
        (client.SetLogLevel deps ctx logLevelName).client.logger = some logger) ∧
      ((client.SetLogLevel deps ctx logLevelName).client.getLogger deps).outcome =
        (client.getLogger deps).outcome ∧
      (client.SetLogLevel deps ctx logLevelName).client.observerOrigin
        = client.observerOrigin ∧
      (client.SetLogLevel deps ctx logLevelName).client.observers = client.observers := by
  obtain ⟨g, t, l, o, obs⟩ := client
  cases t <;> cases l <;>
    simp [Szproduct.SetLogLevel, enter_eq, leave_eq, getLogger_eq, hInvalid]

theorem SetLogLevel_rejects_invalid_name_witness :
    IsValidLogLevelName "LOUD" = false ∧
    ((observedFacade.SetLogLevel sampleDeps sampleCtx "LOUD").outcome =
        .returned (some (.errorf ("invalid error level: " ++ "LOUD"))) ∧
      (observedFacade.SetLogLevel sampleDeps sampleCtx "LOUD").client.isTrace
        = observedFacade.isTrace ∧
      (∀ logger, observedFacade.logger = some logger →
        (observedFacade.SetLogLevel sampleDeps sampleCtx "LOUD").client.logger = some logger) ∧
      ((observedFacade.SetLogLevel sampleDeps sampleCtx "LOUD").client.getLogger
          sampleDeps).outcome = (observedFacade.getLogger sampleDeps).outcome ∧
      (observedFacade.SetLogLevel sampleDeps sampleCtx "LOUD").client.observerOrigin
        = observedFacade.observerOrigin ∧
      (observedFacade.SetLogLevel sampleDeps sampleCtx "LOUD").client.observers
        = observedFacade.observers) :=
  ⟨by decide, SetLogLevel_rejects_invalid_name sampleDeps observedFacade sampleCtx "LOUD"
    (by decide)⟩

/-! ## The export cursor -/

theorem Next_of_Exhausted (Classify : GoError → GoError) (cursor : ExportCursor)
    (hState : cursor.state = .Exhausted) : cursor.Next Classify = (.ok "", cursor) := by
  simp [ExportCursor.Next, hState]

theorem Next_of_Closed (Classify : GoError → GoError) (cursor : ExportCursor)
    (hState : cursor.state = .Closed) :
    cursor.Next Classify = (.error .InvalidState, cursor) := by
  simp [ExportCursor.Next, hState]

theorem iterate_Next_of_Exhausted (Classify : GoError → GoError) (cursor : ExportCursor)
    (hState : cursor.state = .Exhausted) (further : Nat) :
    (fun c : ExportCursor => (c.Next Classify).2)^[further] cursor = cursor := by
  induction further with
  | zero => rfl
  | succ k ih => rw [Function.iterate_succ_apply', ih, Next_of_Exhausted Classify cursor hState]

theorem iterate_Next_of_Closed (Classify : GoError → GoError) (cursor : ExportCursor)
    (hState : cursor.state = .Closed) (further : Nat) :
    (fun c : ExportCursor => (c.Next Classify).2)^[further] cursor = cursor := by
  induction further with
  | zero => rfl
  | succ k ih => rw [Function.iterate_succ_apply', ih, Next_of_Closed Classify cursor hState]

theorem Close_state (Classify : GoError → GoError) (cursor : ExportCursor) :
    (cursor.Close Classify).2.state = .Closed := by
  obtain ⟨handle, state, remote⟩ := cursor
  cases state <;> cases hReply : remote.releaseReply <;>
    simp [ExportCursor.Close, RemoteExport.release, hReply]

theorem Close_of_Closed (Classify : GoError → GoError) (cursor : ExportCursor)
    (hState : cursor.state = .Closed) : cursor.Close Classify = (none, cursor) := by
  simp [ExportCursor.Close, hState]

theorem fetchAll_serving (Classify : GoError → GoError) (handle : Nat)
    (releaseReply : Option GoError) (releases : Nat) (chunks : List String)
    (hChunks : ∀ chunk ∈ chunks, chunk ≠ "") (fetches : Nat) (fuel : Nat)
    (hFuel : chunks.length < fuel) :
    ExportCursor.fetchAll Classify fuel
        { handle := handle, state := .Open,
          remote := { replies := chunks.map fun chunk => (chunk, none),
                      releaseReply := releaseReply, fetches := fetches,
                      releases := releases } } =
      some (concatFragments chunks,
        { handle := handle, state := .Exhausted,
          remote := { replies := [], releaseReply := releaseReply,
                      fetches := fetches + chunks.length + 1, releases := releases } }) := by
  induction chunks generalizing fetches fuel with
  | nil =>
    cases fuel with
    | zero => simp at hFuel
    | succ fuel =>
      simp [ExportCursor.fetchAll, ExportCursor.Next, RemoteExport.fetch, concatFragments]
  | cons chunk rest ih =>
    cases fuel with
    | zero => simp at hFuel
    | succ fuel =>
      have hChunk : chunk ≠ "" := hChunks chunk (by simp)
      have hRest : ∀ c ∈ rest, c ≠ "" := fun c hc => hChunks c (by simp [hc])
      have hLen : rest.length < fuel := by simpa using hFuel
      have := ih hRest (fetches + 1) fuel hLen
      simp [ExportCursor.fetchAll, ExportCursor.Next, RemoteExport.fetch, concatFragments,
        hChunk, this]
      omega

/-- C18: for every report and every split of it into non-empty chunks by the server, the
fragments returned by successive Next calls on the open cursor, appended in fetch order
up to the first empty fragment, are the report, the loop ending once it is given more
fetches than there are chunks; every further Next after that returns the empty fragment
again, with no error. -/
theorem fetched_fragments_reproduce_report (Classify : GoError → GoError) (handle : Nat)
    (chunks : List String) (releaseReply : Option GoError) (fuel : Nat) (further : Nat)
    (hChunks : ∀ chunk ∈ chunks, chunk ≠ "") (hFuel : chunks.length < fuel) :
    ∃ exhausted : ExportCursor,
      ExportCursor.fetchAll Classify fuel
          (ExportCursor.opened handle (RemoteExport.serving chunks releaseReply)) =
        some (concatFragments chunks, exhausted) ∧
      (((fun c : ExportCursor => (c.Next Classify).2)^[further] exhausted).Next Classify).1 =
        .ok "" := by
  refine ⟨_, fetchAll_serving Classify handle releaseReply 0 chunks hChunks 0 fuel hFuel, ?_⟩
  rw [iterate_Next_of_Exhausted Classify _ rfl, Next_of_Exhausted Classify _ rfl]

theorem fetched_fragments_reproduce_report_witness :
    ((∀ chunk ∈ ["1,0,CUSTOMERS,1001\n", "1,0,CUSTOMERS,", "1002\n1,0,CUSTOMERS,1003\n"],
        chunk ≠ "") ∧
      ["1,0,CUSTOMERS,1001\n", "1,0,CUSTOMERS,", "1002\n1,0,CUSTOMERS,1003\n"].length < 4) ∧
    ∃ exhausted : ExportCursor,
      ExportCursor.fetchAll id 4
          (ExportCursor.opened 2
            (RemoteExport.serving
              ["1,0,CUSTOMERS,1001\n", "1,0,CUSTOMERS,", "1002\n1,0,CUSTOMERS,1003\n"] none)) =
        some (concatFragments
          ["1,0,CUSTOMERS,1001\n", "1,0,CUSTOMERS,", "1002\n1,0,CUSTOMERS,1003\n"],
          exhausted) ∧
      (((fun c : ExportCursor => (c.Next id).2)^[2] exhausted).Next id).1 = .ok "" :=
  ⟨⟨by decide, by decide⟩,
    fetched_fragments_reproduce_report id 2
      ["1,0,CUSTOMERS,1001\n", "1,0,CUSTOMERS,", "1002\n1,0,CUSTOMERS,1003\n"] none 4 2
      (by decide) (by decide)⟩

/-- C19: for every cursor that has been closed, a later Next, whether it is the first
one after the Close or comes after other Next calls, returns the InvalidState error and
no fragment. -/
theorem Next_after_Close_is_InvalidState (Classify : GoError → GoError)
    (cursor : ExportCursor) (further : Nat) :
    (((fun c : ExportCursor => (c.Next Classify).2)^[further]
        (cursor.Close Classify).2).Next Classify).1 = .error .InvalidState := by
  rw [iterate_Next_of_Closed Classify _ (Close_state Classify cursor),
    Next_of_Closed Classify _ (Close_state Classify cursor)]

/-- C20: Close on a cursor whose handle the remote side releases returns no error; a
second Close returns no error and changes nothing, the remote side included; and the
cursor is in the Closed state after the first Close whatever the remote side answered to
the release. -/
theorem Close_is_idempotent_and_closes (Classify : GoError → GoError)
    (cursor : ExportCursor) :
    (cursor.remote.releaseReply = none → (cursor.Close Classify).1 = none) ∧
      (cursor.Close Classify).2.state = .Closed ∧
      ((cursor.Close Classify).2.Close Classify).1 = none ∧
      ((cursor.Close Classify).2.Close Classify).2 = (cursor.Close Classify).2 := by
  refine ⟨?_, Close_state Classify cursor, ?_, ?_⟩
  · intro hReply
    obtain ⟨handle, state, remote⟩ := cursor
    simp only at hReply
    cases state <;> simp [ExportCursor.Close, RemoteExport.release, hReply]
  · rw [Close_of_Closed Classify _ (Close_state Classify cursor)]
  · rw [Close_of_Closed Classify _ (Close_state Classify cursor)]

theorem Close_is_idempotent_and_closes_witness :
    (releasableCursor.state = .Open ∧ releasableCursor.remote.releaseReply = none ∧
      (releasableCursor.Close id).1 = none) ∧
    (sampleCursor.state = .Open ∧
      (sampleCursor.Close id).1 = some (.remote (.grpc 13 "release failed")) ∧
      (sampleCursor.Close id).2.state = .Closed ∧
      ((sampleCursor.Close id).2.Close id).1 = none) :=
  ⟨⟨rfl, rfl, (Close_is_idempotent_and_closes id releasableCursor).1 rfl⟩,
    ⟨rfl, by decide, (Close_is_idempotent_and_closes id sampleCursor).2.1,
      (Close_is_idempotent_and_closes id sampleCursor).2.2.1⟩⟩

/-! ## Who is notified, with what details, and tracing -/

/-- C27: the detail map of every notification holds exactly the entries built from the
arguments of the call: none for Destroy, GetLicense and GetVersion; instanceName,
settings and verboseLogging, the last as its decimal string, for Initialize; observerID
for RegisterObserver and UnregisterObserver; logLevelName for SetLogLevel.  Nothing of
the remote response is in it. -/
theorem notification_details_are_call_arguments (deps : Deps) (client : Szproduct)
    (call : Call) (n : Notification)
    (hn : n ∈ notifications (client.call deps call).effects) :
    n.details = call.details := by
  obtain ⟨g, t, l, o, obs⟩ := client
  revert hn
  cases call <;> cases t <;> cases obs <;>
    simp [Szproduct.call, Step.map_effects, Szproduct.Destroy,
      Szproduct.GetLicense, Szproduct.GetVersion, Szproduct.Initialize,
      Szproduct.RegisterObserver, Szproduct.SetLogLevel, Szproduct.UnregisterObserver,
      enter_eq, leave_eq, getLogger_eq, Szproduct.notifySpawned, notifications,
      Call.details] <;>
    (try split) <;> (try simp [notifications]) <;> (try (rintro rfl; rfl))

theorem notification_details_are_call_arguments_witness :
    initializeNotification ∈
      notifications (observedFacade.call sampleDeps
        (.Initialize sampleCtx "Test name" "none" (-1))).effects ∧
    initializeNotification.details =
      (Call.Initialize sampleCtx "Test name" "none" (-1)).details :=
  ⟨by decide,
    notification_details_are_call_arguments sampleDeps observedFacade
      (.Initialize sampleCtx "Test name" "none" (-1)) initializeNotification (by decide)⟩

/-- C28: after SetLogLevel with a valid log level name the trace flag is on exactly when
the name is TRACE, whatever the flag was before; the call returns no error and the
logger is at the level set. -/
theorem SetLogLevel_sets_trace_flag (deps : Deps) (client : Szproduct) (ctx : Context)
    (logLevelName : String) (hValid : IsValidLogLevelName logLevelName = true) :
    ((client.SetLogLevel deps ctx logLevelName).client.isTrace = true ↔
        logLevelName = "TRACE") ∧
      (client.SetLogLevel deps ctx logLevelName).outcome = .returned none ∧
      (client.SetLogLevel deps ctx logLevelName).client.logger =
        some { level := logLevelName } := by
  obtain ⟨g, t, l, o, obs⟩ := client
  cases t <;> cases obs <;> cases l <;>
    simp [Szproduct.SetLogLevel, enter_eq, leave_eq, getLogger_eq, hValid,
      Logger.SetLogLevel, LevelTraceName, Szproduct.notifySpawned]

theorem SetLogLevel_sets_trace_flag_witness :
    IsValidLogLevelName "TRACE" = true ∧
    (((freshFacade.SetLogLevel sampleDeps sampleCtx "TRACE").client.isTrace = true ↔
        "TRACE" = "TRACE") ∧
      (freshFacade.SetLogLevel sampleDeps sampleCtx "TRACE").outcome = .returned none ∧
      (freshFacade.SetLogLevel sampleDeps sampleCtx "TRACE").client.logger =
        some { level := "TRACE" }) :=
  ⟨by decide, SetLogLevel_sets_trace_flag sampleDeps freshFacade sampleCtx "TRACE" (by decide)⟩

/-- C29: tracing is gated by the trace flag as it is at entry: a call made with the flag
off logs no trace record, and a call made with the flag on logs exactly two, the entry
record of the method first and then its exit record, whose number is the entry number
plus one; this holds however the call ends, the early return of SetLogLevel and a panic
included, and whatever the call does to the flag. -/
theorem tracing_gated_by_flag_at_entry (deps : Deps) (client : Szproduct) (call : Call) :
    (logRecords (client.call deps call).effects).map Prod.fst =
      if client.isTrace then [call.operation.entryNumber, call.operation.entryNumber + 1]
      else [] := by
  obtain ⟨g, t, l, o, obs⟩ := client
  cases call <;> cases t <;> cases obs <;>
    simp [Szproduct.call, Step.map_effects, Szproduct.Destroy,
      Szproduct.GetLicense, Szproduct.GetVersion, Szproduct.Initialize,
      Szproduct.RegisterObserver, Szproduct.SetLogLevel, Szproduct.UnregisterObserver,
      enter_eq, leave_eq, getLogger_eq, Szproduct.notifySpawned, logRecords,
      Call.operation, Operation.entryNumber] <;>
    (try split) <;> (try simp [logRecords])

/-! ## The error classifier -/

/-- C24: for a failure without a fault code the kind follows the transport condition:
deadline exceeded, unavailable and resource exhausted give Retryable, not-found gives
NotFound, invalid-argument gives BadInput, anything else gives Unrecoverable; for a
failure with a fault code the kind is the one of the code, whatever the transport
condition is. -/
theorem classifier_mapping_policy (componentID : Nat)
    (faultKinds : Nat → Option TaxonomyKind) (rawError : RawFailure) :
    (rawError.faultCode = none →
        (ErrorClassifier.Classify componentID faultKinds rawError).kind =
          match rawError.transport with
          | .DeadlineExceeded => .Retryable
          | .Unavailable => .Retryable
          | .ResourceExhausted => .Retryable
          | .NotFound => .NotFound
          | .InvalidArgument => .BadInput
          | .Other _ => .Unrecoverable) ∧
      (∀ code, rawError.faultCode = some code → ∀ transport,
        (ErrorClassifier.Classify componentID faultKinds
          { rawError with transport := transport }).kind = (faultKinds code).getD .Unknown) := by
  constructor
  · intro hNone
    simp [ErrorClassifier.Classify, hNone]
  · intro code hCode transport
    cases hKind : faultKinds code <;> simp [ErrorClassifier.Classify, hCode, hKind]

theorem classifier_mapping_policy_witness :
    (ErrorClassifier.Classify 6026 sampleFaultKinds
        { faultCode := none, transport := .ResourceExhausted, text := "" }).kind
          = .Retryable ∧
      (ErrorClassifier.Classify 6026 sampleFaultKinds
        { faultCode := some 23, transport := .Unavailable, text := "" }).kind
          = (sampleFaultKinds 23).getD .Unknown :=
  ⟨(classifier_mapping_policy 6026 sampleFaultKinds
      { faultCode := none, transport := .ResourceExhausted, text := "" }).1 rfl,
    (classifier_mapping_policy 6026 sampleFaultKinds
      { faultCode := some 23, transport := .Other 0, text := "" }).2 23 rfl .Unavailable⟩

/-! ## The report iterators -/

theorem AsSequence_eq_untilStop (Classify : GoError → GoError) (fuel : Nat)
    (cursor : ExportCursor) :
    (cursor.AsSequence Classify fuel).1 = untilStop (cursor.nextResults Classify fuel) := by
  induction fuel generalizing cursor with
  | zero => rfl
  | succ fuel ih =>
    simp only [ExportCursor.AsSequence, ExportCursor.nextResults]
    rcases hNext : cursor.Next Classify with ⟨result, cursor1⟩
    cases result with
    | error e => simp [untilStop]
    | ok fragment =>
      by_cases hEmpty : fragment = ""
      · simp [untilStop, hEmpty]
      · simp [untilStop, hEmpty, ih]

theorem untilStop_no_empty (results : List (Except ExportError String))
    (element : Except ExportError String) (hMem : element ∈ untilStop results) :
    element ≠ .ok "" := by
  induction results with
  | nil => simp [untilStop] at hMem
  | cons head rest ih =>
    cases head with
    | error e =>
      simp [untilStop] at hMem
      subst hMem
      simp
    | ok fragment =>
      by_cases hEmpty : fragment = ""
      · simp [untilStop, hEmpty] at hMem
      · simp only [untilStop, hEmpty, if_false, List.mem_cons] at hMem
        rcases hMem with h | h
        · subst h
          intro hEq
          exact hEmpty (by injection hEq)
        · exact ih h

theorem untilStop_error_last (results : List (Except ExportError String))
    (before : List (Except ExportError String)) (e : ExportError)
    (after : List (Except ExportError String))
    (hSplit : untilStop results = before ++ .error e :: after) : after = [] := by
  induction results generalizing before with
  | nil => simp [untilStop] at hSplit
  | cons head rest ih =>
    cases head with
    | error e1 =>
      simp only [untilStop] at hSplit
      cases before with
      | nil =>
        simp only [List.nil_append, List.cons.injEq] at hSplit
        exact hSplit.2.symm
      | cons b bs =>
        simp only [List.cons_append, List.cons.injEq] at hSplit
        have := hSplit.2
        simp at this
    | ok fragment =>
      by_cases hEmpty : fragment = ""
      · simp [untilStop, hEmpty] at hSplit
      · simp only [untilStop, hEmpty, if_false] at hSplit
        cases before with
        | nil => simp at hSplit
        | cons b bs =>
          simp only [List.cons_append, List.cons.injEq] at hSplit
          exact ih bs hSplit.2

theorem Next_ok_nonempty (Classify : GoError → GoError) (cursor : ExportCursor)
    (fragment : String) (cursor1 : ExportCursor)
    (hNext : cursor.Next Classify = (.ok fragment, cursor1)) (hFragment : fragment ≠ "") :
    cursor1.remote.replies.length + 1 = cursor.remote.replies.length := by
  obtain ⟨handle, state, remote⟩ := cursor
  obtain ⟨replies, releaseReply, fetches, releases⟩ := remote
  cases state with
  | Closed => simp [ExportCursor.Next] at hNext
  | Exhausted =>
    simp only [ExportCursor.Next, Prod.mk.injEq, Except.ok.injEq] at hNext
    exact absurd hNext.1.symm hFragment
  | Open =>
    cases replies with
    | nil =>
      simp only [ExportCursor.Next, RemoteExport.fetch, List.headD_nil, if_true, Prod.mk.injEq,
        Except.ok.injEq] at hNext
      exact absurd hNext.1.symm hFragment
    | cons reply rest =>
      obtain ⟨text, failure⟩ := reply
      cases failure with
      | some raw => simp [ExportCursor.Next, RemoteExport.fetch] at hNext
      | none =>
        by_cases hEmpty : text = ""
        · simp only [ExportCursor.Next, RemoteExport.fetch, List.headD_cons, hEmpty, if_true,
            Prod.mk.injEq, Except.ok.injEq] at hNext
          exact absurd hNext.1.symm hFragment
        · simp only [ExportCursor.Next, RemoteExport.fetch, List.headD_cons, hEmpty, if_false,
            Prod.mk.injEq, Except.ok.injEq, List.tail_cons] at hNext
          rw [← hNext.2]
          simp

theorem AsSequence_stable (Classify : GoError → GoError) (bound : Nat) (cursor : ExportCursor)
    (hBound : cursor.remote.replies.length ≤ bound) (extra : Nat) :
    (cursor.AsSequence Classify (bound + 1 + extra)).1 =
      (cursor.AsSequence Classify (bound + 1)).1 := by
  induction bound generalizing cursor with
  | zero =>
    have hFuel : 0 + 1 + extra = extra + 1 := by omega
    rw [hFuel]
    simp only [ExportCursor.AsSequence]
    rcases hNext : cursor.Next Classify with ⟨result, cursor1⟩
    cases result with
    | error e => rfl
    | ok fragment =>
      by_cases hEmpty : fragment = ""
      · simp [hEmpty]
      · have := Next_ok_nonempty Classify cursor fragment cursor1 hNext hEmpty
        omega
  | succ bound ih =>
    have hFuel : bound + 1 + 1 + extra = (bound + 1 + extra) + 1 := by omega
    rw [hFuel]
    simp only [ExportCursor.AsSequence]
    rcases hNext : cursor.Next Classify with ⟨result, cursor1⟩
    cases result with
    | error e => rfl
    | ok fragment =>
      by_cases hEmpty : fragment = ""
      · simp [hEmpty]
      · have hLen := Next_ok_nonempty Classify cursor fragment cursor1 hNext hEmpty
        have hRec := ih cursor1 (by omega)
        simp only [hEmpty, if_false]
        rw [hRec]
        simp only [ExportCursor.AsSequence]

/-- C22: a report iterator yields exactly what successive Next calls on the cursor of a
newly opened export return, in order, up to the first empty fragment, which ends it, or
up to and with the first error: no element is an empty fragment, an element that
carries an error is the last one, and once the iterator is given one fetch more than the
remote side has answers the sequence no longer depends on the number of fetches. -/
theorem iterator_refines_repeated_Next (Classify : GoError → GoError) (fuel : Nat)
    (extra : Nat) (handle : Nat) (remote : RemoteExport) :
    ExportEntityReportIterator Classify fuel handle remote =
        untilStop ((ExportCursor.opened handle remote).nextResults Classify fuel) ∧
      (∀ element ∈ ExportEntityReportIterator Classify fuel handle remote,
        element ≠ .ok "") ∧
      (∀ before e after,
        ExportEntityReportIterator Classify fuel handle remote = before ++ .error e :: after →
          after = []) ∧
      ExportEntityReportIterator Classify (remote.replies.length + 1 + extra) handle remote =
        ExportEntityReportIterator Classify (remote.replies.length + 1) handle remote := by
  refine ⟨AsSequence_eq_untilStop Classify fuel _, ?_, ?_, ?_⟩
  · intro element hMem
    rw [ExportEntityReportIterator, AsSequence_eq_untilStop] at hMem
    exact untilStop_no_empty _ element hMem
  · intro before e after hSplit
    rw [ExportEntityReportIterator, AsSequence_eq_untilStop] at hSplit
    exact untilStop_error_last _ before e after hSplit
  · exact AsSequence_stable Classify remote.replies.length
      (ExportCursor.opened handle remote) (Nat.le_refl _) extra

theorem iterator_refines_repeated_Next_witness :
    ExportEntityReportIterator classifyErr 5 7 failingRemote =
        [.ok "1,0,CUSTOMERS,1001\n", .error (.remote (.szerror 14 "unavailable"))] ∧
      ExportEntityReportIterator classifyErr 5 7 failingRemote =
        untilStop ((ExportCursor.opened 7 failingRemote).nextResults classifyErr 5) :=
  ⟨by rfl, (iterator_refines_repeated_Next classifyErr 5 0 7 failingRemote).1⟩

/-! ## What a goroutine passes to Notify -/

theorem call_notifyCalls_origin (deps : Deps) (client : Szproduct) (call : Call)
    (later : Szproduct) (nc : NotifyCall)
    (hn : nc ∈ notifyCalls later (client.call deps call).effects) :
    nc.origin =
      if nc.notification.spawned then later.observerOrigin else client.observerOrigin := by
  obtain ⟨g, t, l, o, obs⟩ := client
  revert hn
  cases call with
  | SetLogLevel ctx1 logLevelName =>
    cases hValid : IsValidLogLevelName logLevelName <;> cases t <;> cases obs <;>
      simp [Szproduct.call, Step.map_effects, Szproduct.SetLogLevel, enter_eq, leave_eq,
        getLogger_eq, Szproduct.notifySpawned, notifyCalls, hValid] <;>
      (try (rintro rfl; simp))
  | _ =>
    cases t <;> cases obs <;>
      simp [Szproduct.call, Step.map_effects, Szproduct.Destroy,
        Szproduct.GetLicense, Szproduct.GetVersion, Szproduct.Initialize,
        Szproduct.RegisterObserver, Szproduct.UnregisterObserver,
        enter_eq, leave_eq, getLogger_eq, Szproduct.notifySpawned, notifyCalls] <;>
      (try (rintro rfl; simp))

/-- C15, as stated, fails: with the origin set to "first", GetLicense hands its Notify
call to a goroutine; when the origin is set to "second" before that goroutine runs, the
Notify call carries "second", not the origin that was current when GetLicense was
called. -/
theorem spawned_notification_carries_origin_set_later :
    (observedFacade.SetObserverOrigin sampleCtx "first").GetObserverOrigin sampleCtx
        = "first" ∧
      (notifyCalls
        (((observedFacade.SetObserverOrigin sampleCtx "first").call sampleDeps
          (.GetLicense sampleCtx)).client.SetObserverOrigin sampleCtx "second")
        ((observedFacade.SetObserverOrigin sampleCtx "first").call sampleDeps
          (.GetLicense sampleCtx)).effects).map (fun nc => nc.origin) = ["second"] := by
  decide

/-- C15, amended: after SetObserverOrigin(o) and any number of calls, the Notify call of
a call carries the origin o when it is made on the calling path (UnregisterObserver), and
the origin the facade has when the goroutine runs when it is made in a goroutine (the
other six methods); that origin is o again when the goroutine runs after any number of
further calls of the seven methods, none of which sets the origin. -/
theorem notify_call_origin_until_set_again (deps : Deps) (client : Szproduct)
    (ctx : Context) (origin : String) (calls : List Call) (call : Call) (later : Szproduct)
    (nc : NotifyCall)
    (hn : nc ∈ notifyCalls later
      ((((client.SetObserverOrigin ctx origin).runCalls deps calls).1).call deps call).effects) :
    nc.origin = (if nc.notification.spawned then later.observerOrigin else origin) ∧
      ∀ laterCalls : List Call,
        later = (((((client.SetObserverOrigin ctx origin).runCalls deps calls).1).call deps
          call).client.runCalls deps laterCalls).1 →
        nc.origin = origin := by
  have hOrigin : ((client.SetObserverOrigin ctx origin).runCalls deps calls).1.observerOrigin
      = origin := runCalls_observerOrigin deps calls _
  have h := call_notifyCalls_origin deps _ call later nc hn
  rw [hOrigin] at h
  refine ⟨h, ?_⟩
  intro laterCalls hLater
  rw [h, hLater, runCalls_observerOrigin, call_observerOrigin, hOrigin]
  split <;> rfl

theorem notify_call_origin_until_set_again_witness :
    ({ observers := some { observers := [{ ObserverID := "observer-1" }] },
        origin := "first", notification := failedVersionNotification } : NotifyCall) ∈
      notifyCalls
        (((((observedFacade.SetObserverOrigin sampleCtx "first").runCalls sampleDeps
          [.GetVersion sampleCtx]).1).call sampleDeps (.GetVersion sampleCtx)).client.runCalls
            sampleDeps [.GetLicense sampleCtx]).1
        ((((observedFacade.SetObserverOrigin sampleCtx "first").runCalls sampleDeps
          [.GetVersion sampleCtx]).1).call sampleDeps (.GetVersion sampleCtx)).effects ∧
    ({ observers := some { observers := [{ ObserverID := "observer-1" }] },
        origin := "first", notification := failedVersionNotification } : NotifyCall).origin
      = "first" :=
  ⟨by decide,
    (notify_call_origin_until_set_again sampleDeps observedFacade sampleCtx "first"
      [.GetVersion sampleCtx] (.GetVersion sampleCtx) _ _ (by decide)).2
        [.GetLicense sampleCtx] rfl⟩

theorem call_keeps_observer (deps : Deps) (client : Szproduct) (call : Call)
    (observer : Observer)
    (hHolds : ∃ hub, client.observers = some hub ∧ observer ∈ hub.observers)
    (hCall : call.unregisters observer = false) :
    ∃ hub, (client.call deps call).client.observers = some hub ∧
      observer ∈ hub.observers := by
  obtain ⟨hub, hHub, hMem⟩ := hHolds
  cases call with
  | RegisterObserver ctx added =>
    refine ⟨_, by simp only [Szproduct.call, Step.map_client]; exact RegisterObserver_observers deps client ctx added, ?_⟩
    simp only [hHub, Option.getD_some, SimpleSubject.RegisterObserver]
    split
    · exact hMem
    · simp [hMem]
  | UnregisterObserver ctx removed =>
    have hNe : removed ≠ observer := by simpa [Call.unregisters] using hCall
    have hStays : observer ∈ hub.observers.erase removed :=
      (List.mem_erase_of_ne (Ne.symm hNe)).2 hMem
    simp only [Szproduct.call, Step.map_client, UnregisterObserver_observers, hHub]
    by_cases hIn : removed ∈ hub.observers
    · have hNonempty : hub.observers.erase removed ≠ [] := List.ne_nil_of_mem hStays
      simp [SimpleSubject.UnregisterObserver, SimpleSubject.HasObservers, hIn, hNonempty,
        hStays]
    · have hNonempty : hub.observers ≠ [] := List.ne_nil_of_mem hMem
      simp [SimpleSubject.UnregisterObserver, SimpleSubject.HasObservers, hIn, hNonempty,
        hMem]
  | SetLogLevel ctx logLevelName =>
    obtain ⟨g, t, l, o, obs⟩ := client
    simp only at hHub
    subst hHub
    refine ⟨hub, ?_, hMem⟩
    cases hValid : IsValidLogLevelName logLevelName <;> cases t <;>
      simp [Szproduct.call, Step.map_client, Szproduct.SetLogLevel, enter_eq, leave_eq,
        getLogger_eq, hValid]
  | _ =>
    obtain ⟨g, t, l, o, obs⟩ := client
    simp only at hHub
    subst hHub
    refine ⟨hub, ?_, hMem⟩
    cases t <;>
      simp [Szproduct.call, Step.map_client, Szproduct.Destroy, Szproduct.GetLicense,
        Szproduct.GetVersion, Szproduct.Initialize, enter_eq, leave_eq]

theorem runCalls_keeps_observer (deps : Deps) (calls : List Call) (client : Szproduct)
    (observer : Observer)
    (hHolds : ∃ hub, client.observers = some hub ∧ observer ∈ hub.observers)
    (hCalls : ∀ call ∈ calls, call.unregisters observer = false) :
    ∃ hub, (client.runCalls deps calls).1.observers = some hub ∧
      observer ∈ hub.observers := by
  induction calls generalizing client with
  | nil => exact hHolds
  | cons call rest ih =>
    simp only [Szproduct.runCalls]
    exact ih _ (call_keeps_observer deps client call observer hHolds (hCalls call (by simp)))
      (fun c hc => hCalls c (by simp [hc]))

theorem RegisterObserver_spawns (deps : Deps) (client : Szproduct) (ctx : Context)
    (observer : Observer) (later : Szproduct) :
    ∃ n, notifications (client.RegisterObserver deps ctx observer).effects = [n] ∧
      n.spawned = true ∧
      notifyCalls later (client.RegisterObserver deps ctx observer).effects =
        [⟨later.observers, later.observerOrigin, n⟩] := by
  obtain ⟨g, t, l, o, obs⟩ := client
  cases t <;> cases obs <;>
    simp [Szproduct.RegisterObserver, enter_eq, leave_eq, Szproduct.notifySpawned,
      notifications, notifyCalls]

/-- C26, as stated, fails for RegisterObserver: its Notify call is made in a goroutine
that reads the hub when it runs; on a fresh facade, when the observer is unregistered
before that goroutine runs, the hub is nil by then and the new observer is not
notified. -/
theorem RegisterObserver_notification_can_miss_new_observer :
    (notifyCalls
        ((freshFacade.RegisterObserver sampleDeps sampleCtx
          { ObserverID := "observer-1" }).client.UnregisterObserver sampleDeps sampleCtx
            { ObserverID := "observer-1" }).client
        (freshFacade.RegisterObserver sampleDeps sampleCtx
          { ObserverID := "observer-1" }).effects).map (fun nc => nc.observers) = [none] := by
  decide

/-- C26, amended: RegisterObserver hands its one Notify call to a goroutine after it
added the observer; the call goes to the hub the facade has when the goroutine runs,
which holds the new observer, on the first registration too, when the goroutine runs at
once or after any calls none of which unregisters that observer.  UnregisterObserver of
a registered observer makes its one Notify call on the calling path, with the hub as it
was before the call, so the departing observer is among those notified, and removes the
observer, setting the hub to nil if it was the last, only afterwards. -/
theorem registration_change_notify_calls (deps : Deps) (client : Szproduct)
    (ctx : Context) (observer : Observer) (laterCalls : List Call) (later : Szproduct) :
    (∃ n, notifications (client.RegisterObserver deps ctx observer).effects = [n] ∧
        n.spawned = true ∧
        notifyCalls later (client.RegisterObserver deps ctx observer).effects =
          [⟨later.observers, later.observerOrigin, n⟩]) ∧
      ((∀ call ∈ laterCalls, call.unregisters observer = false) →
        ∀ nc ∈ notifyCalls
            ((client.RegisterObserver deps ctx observer).client.runCalls deps laterCalls).1
            (client.RegisterObserver deps ctx observer).effects,
          ∃ hub, nc.observers = some hub ∧ observer ∈ hub.observers) ∧
      (∀ hub, client.observers = some hub → observer ∈ hub.observers →
        ∃ n, notifyCalls later (client.UnregisterObserver deps ctx observer).effects =
            [⟨some hub, client.observerOrigin, n⟩] ∧
          n.spawned = false ∧
          (client.UnregisterObserver deps ctx observer).client.observers =
            hubOf (hub.observers.erase observer)) := by
  refine ⟨RegisterObserver_spawns deps client ctx observer later, ?_, ?_⟩
  · intro hCalls nc hn
    obtain ⟨n, -, -, hCallsEq⟩ := RegisterObserver_spawns deps client ctx observer
      ((client.RegisterObserver deps ctx observer).client.runCalls deps laterCalls).1
    rw [hCallsEq] at hn
    simp only [List.mem_singleton] at hn
    subst hn
    have hAdded : ∃ hub, (client.RegisterObserver deps ctx observer).client.observers =
        some hub ∧ observer ∈ hub.observers := by
      refine ⟨_, RegisterObserver_observers deps client ctx observer, ?_⟩
      simp only [SimpleSubject.RegisterObserver]
      split
      · assumption
      · simp
    exact runCalls_keeps_observer deps laterCalls _ observer hAdded hCalls
  · intro hub hHub hMem
    obtain ⟨g, t, l, o, obs⟩ := client
    simp only at hHub
    subst hHub
    cases t <;>
      simp [Szproduct.UnregisterObserver, enter_eq, leave_eq, notifyCalls,
        SimpleSubject.UnregisterObserver, SimpleSubject.HasObservers, hMem, hubOf] <;>
      split <;> simp_all

theorem registration_change_notify_calls_witness :
    (∀ call ∈ [Call.GetLicense sampleCtx,
        Call.UnregisterObserver sampleCtx { ObserverID := "observer-2" }],
      call.unregisters { ObserverID := "observer-1" } = false) ∧
    (∀ nc ∈ notifyCalls
        ((freshFacade.RegisterObserver sampleDeps sampleCtx
          { ObserverID := "observer-1" }).client.runCalls sampleDeps
            [Call.GetLicense sampleCtx,
              Call.UnregisterObserver sampleCtx { ObserverID := "observer-2" }]).1
        (freshFacade.RegisterObserver sampleDeps sampleCtx
          { ObserverID := "observer-1" }).effects,
      ∃ hub, nc.observers = some hub ∧
        ({ ObserverID := "observer-1" } : Observer) ∈ hub.observers) ∧
    (observedFacade.observers = some { observers := [{ ObserverID := "observer-1" }] } ∧
      ∃ n, notifyCalls freshFacade (observedFacade.UnregisterObserver sampleDeps sampleCtx
            { ObserverID := "observer-1" }).effects =
          [⟨some { observers := [{ ObserverID := "observer-1" }] },
            observedFacade.observerOrigin, n⟩] ∧ n.spawned = false) :=
  ⟨by decide,
    (registration_change_notify_calls sampleDeps freshFacade sampleCtx
      { ObserverID := "observer-1" }
      [Call.GetLicense sampleCtx,
        Call.UnregisterObserver sampleCtx { ObserverID := "observer-2" }] freshFacade).2.1
      (by decide),
    by decide,
    ((registration_change_notify_calls sampleDeps observedFacade sampleCtx
      { ObserverID := "observer-1" } [] freshFacade).2.2
      { observers := [{ ObserverID := "observer-1" }] } (by decide) (by decide)).imp
      fun _ h => ⟨h.1, h.2.1⟩⟩

/-! ## The CSV report -/

theorem AsSequence_serving (Classify : GoError → GoError) (handle : Nat)
    (releaseReply : Option GoError) (releases : Nat) (chunks : List String)
    (hChunks : ∀ chunk ∈ chunks, chunk ≠ "") (fetches : Nat) (fuel : Nat)
    (hFuel : chunks.length < fuel) :
    (ExportCursor.AsSequence Classify fuel
        { handle := handle, state := .Open,
          remote := { replies := chunks.map fun chunk => (chunk, none),
                      releaseReply := releaseReply, fetches := fetches,
                      releases := releases } }).1 = chunks.map .ok := by
  induction chunks generalizing fetches fuel with
  | nil =>
    cases fuel with
    | zero => simp at hFuel
    | succ fuel => simp [ExportCursor.AsSequence, ExportCursor.Next, RemoteExport.fetch]
  | cons chunk rest ih =>
    cases fuel with
    | zero => simp at hFuel
    | succ fuel =>
      have hChunk : chunk ≠ "" := hChunks chunk (by simp)
      have hRest : ∀ c ∈ rest, c ≠ "" := fun c hc => hChunks c (by simp [hc])
      have hLen : rest.length < fuel := by simpa using hFuel
      have := ih hRest (fetches + 1) fuel hLen
      simp [ExportCursor.AsSequence, ExportCursor.Next, RemoteExport.fetch, hChunk, this]

theorem nextResults_serving (Classify : GoError → GoError) (handle : Nat)
    (releaseReply : Option GoError) (releases : Nat) (chunks : List String)
    (hChunks : ∀ chunk ∈ chunks, chunk ≠ "") (fetches : Nat) :
    ExportCursor.nextResults Classify chunks.length
        { handle := handle, state := .Open,
          remote := { replies := chunks.map fun chunk => (chunk, none),
                      releaseReply := releaseReply, fetches := fetches,
                      releases := releases } } = chunks.map .ok := by
  induction chunks generalizing fetches with
  | nil => rfl
  | cons chunk rest ih =>
    have hChunk : chunk ≠ "" := hChunks chunk (by simp)
    have hRest : ∀ c ∈ rest, c ≠ "" := fun c hc => hChunks c (by simp [hc])
    have := ih hRest (fetches + 1)
    simp [ExportCursor.nextResults, ExportCursor.Next, RemoteExport.fetch, hChunk, this]

/-- C21, as stated, fails: on a CSV export whose remote side sends the header line alone
first and then the three data rows in two fragments that do not end where the rows end,
which the spec allows, the iterator yields the header and these two fragments: the
elements after the header, appended, are the data rows, but they are not one element per
row. -/
theorem csv_fragments_need_not_be_rows :
    ExportEntityReportIterator classifyErr 5 3 irregularCsvRemote =
        [.ok sampleHeader, .ok "1,0,CUSTOMERS,1001\n1,0,CUST",
          .ok "OMERS,1002\n1,0,CUSTOMERS,1003\n"] ∧
      concatFragments ["1,0,CUSTOMERS,1001\n1,0,CUST", "OMERS,1002\n1,0,CUSTOMERS,1003\n"] =
        concatFragments sampleRows ∧
      ["1,0,CUSTOMERS,1001\n1,0,CUST", "OMERS,1002\n1,0,CUSTOMERS,1003\n"] ≠ sampleRows :=
  ⟨by rfl, by decide, by decide⟩

/-- C21, amended: on a CSV export whose remote side sends the header line alone as its
first fragment, the first fragment that Next returns, and the first element of the
iterator, is that header line alone, whatever the column list made it; the following
fragments are the fragments of the remote side, unchanged and in report order, so that
appended they are the rest of the report; they need not be one to a row. -/
theorem csv_export_header_first (Classify : GoError → GoError) (handle : Nat)
    (header : String) (chunks : List String) (releaseReply : Option GoError) (fuel : Nat)
    (hHeader : header ≠ "") (hChunks : ∀ chunk ∈ chunks, chunk ≠ "")
    (hFuel : chunks.length + 1 < fuel) :
    ((ExportCursor.opened handle
        (RemoteExport.serving (header :: chunks) releaseReply)).Next Classify).1 =
        .ok header ∧
      (ExportCursor.opened handle
        (RemoteExport.serving (header :: chunks) releaseReply)).nextResults Classify
          (chunks.length + 1) = .ok header :: chunks.map .ok ∧
      ExportEntityReportIterator Classify fuel handle
        (RemoteExport.serving (header :: chunks) releaseReply) =
          .ok header :: chunks.map .ok ∧
      ∃ exhausted, ExportCursor.fetchAll Classify fuel
          (ExportCursor.opened handle (RemoteExport.serving (header :: chunks) releaseReply)) =
        some (header ++ concatFragments chunks, exhausted) := by
  have hAll : ∀ chunk ∈ header :: chunks, chunk ≠ "" := by
    intro chunk hMem
    rcases List.mem_cons.1 hMem with h | h
    · rw [h]
      exact hHeader
    · exact hChunks chunk h
  refine ⟨?_, ?_, ?_, ?_⟩
  · simp [ExportCursor.opened, RemoteExport.serving, ExportCursor.Next, RemoteExport.fetch,
      hHeader]
  · have := nextResults_serving Classify handle releaseReply 0 (header :: chunks) hAll 0
    simpa [ExportCursor.opened, RemoteExport.serving] using this
  · have := AsSequence_serving Classify handle releaseReply 0 (header :: chunks) hAll 0 fuel
      (by simpa using hFuel)
    simpa [ExportEntityReportIterator, ExportCursor.opened, RemoteExport.serving] using this
  · exact ⟨_, fetchAll_serving Classify handle releaseReply 0 (header :: chunks) hAll 0 fuel
      (by simpa using hFuel)⟩

theorem csv_export_header_first_witness :
    (sampleHeader ≠ "" ∧ (∀ chunk ∈ sampleRows, chunk ≠ "") ∧ sampleRows.length + 1 < 6) ∧
    (((ExportCursor.opened 3
        (RemoteExport.serving (sampleHeader :: sampleRows) none)).Next classifyErr).1 =
        .ok sampleHeader ∧
      (ExportCursor.opened 3
        (RemoteExport.serving (sampleHeader :: sampleRows) none)).nextResults classifyErr
          (sampleRows.length + 1) = .ok sampleHeader :: sampleRows.map .ok ∧
      ExportEntityReportIterator classifyErr 6 3
        (RemoteExport.serving (sampleHeader :: sampleRows) none) =
          .ok sampleHeader :: sampleRows.map .ok ∧
      ∃ exhausted, ExportCursor.fetchAll classifyErr 6
          (ExportCursor.opened 3 (RemoteExport.serving (sampleHeader :: sampleRows) none)) =
        some (sampleHeader ++ concatFragments sampleRows, exhausted)) :=
  ⟨⟨by decide, by decide, by decide⟩,
    csv_export_header_first classifyErr 3 sampleHeader sampleRows none 6 (by decide)
      (by decide) (by decide)⟩

end SzSdkGrpc
